import Mathlib

/-
Verification of the sserver expression-parsing and template-rendering engine.

The definitions below are a shallow embedding of the Python sources
`sserver/parse/literal.py`, `sserver/parse/parse.py`,
`sserver/parse/parse_tree.py`, `sserver/templating/template_tag.py` and
`sserver/templating/template_renderer.py`.  Python values are modelled by the
inductive `Value`; Python floats are modelled as exact rationals (every
numeric literal and arithmetic result appearing in the verified properties is
exactly representable); machine-level float rounding is outside the model.
Python exceptions are modelled by the `Err` sum and `Except`.
-/

namespace SServer

/-- Python exceptions raised by the engine, tagged with their message where a
property depends on it. -/
inductive Err where
  | exprBad (msg : String)            -- ExpressionSyntaxException
  | unknownOp (msg : String)          -- UnknownOperatorException
  | typeErr (msg : String)            -- TypeError
  | attrErr (msg : String)            -- AttributeError
  | valueErr (msg : String)           -- ValueError
  | keyErr (msg : String)             -- KeyError
  | indexErr                          -- IndexError
  | zeroDiv                           -- ZeroDivisionError
  | tooManyTagArgs (msg : String)     -- TooManyTagArgumentsException
  | missingTagArgs (msg : String)     -- MissingTagArgumentsException
  | templateArg (msg : String)        -- TemplateArgumentException
  | unknownTag (msg : String)         -- UnknownTagException
  | unclosedBlockTag (msg : String)   -- UnclosedBlockTagException
  | unmodelled (msg : String)         -- behaviour outside the rational-float model
  | fuel                              -- recursion fuel exhausted (model artifact)
deriving DecidableEq

/-- Python runtime values flowing through the engine.  `opObj` is an sserver
`Operator` instance left in the working list by the parse tree (the code keeps
operator objects inline in `evaluated_items`). -/
inductive Value where
  | none
  | bool (b : Bool)
  | int (n : Int)
  | float (q : Rat)
  | str (s : String)
  | list (items : List Value)
  | dict (entries : List (String × Value))
  | opObj (sym : String)

/-- Decimal digits of a natural number, used for Python-style messages. -/
def natRepr (n : Nat) : String := Nat.repr n

/-- Python `str` of an int. -/
def intRepr (n : Int) : String :=
  if n < 0 then ("-") ++ Nat.repr n.natAbs else Nat.repr n.natAbs

/-- Whitespace predicate matching Python `str.isspace` on ASCII input. -/
def pyIsSpace (c : Char) : Bool :=
  c = ' ' || c = '\t' || c = '\n' || c = '\x0d' || c = '\x0b' || c = '\x0c'

/-- Identifier predicate matching Python `str.isidentifier` on ASCII input. -/
def pyIsIdentStr (s : String) : Bool :=
  match s.data with
  | [] => false
  | c :: cs =>
    (c.isAlpha || c = '_') && cs.all (fun d => d.isAlphanum || d = '_')

/-- Drop leading ASCII whitespace. -/
def dropWs (cs : List Char) : List Char := cs.dropWhile pyIsSpace

/-- Strip ASCII whitespace from both ends, as Python `str.strip`. -/
def pyStripChars (cs : List Char) : List Char :=
  ((dropWs cs).reverse.dropWhile pyIsSpace).reverse

/-- Python `str.strip` on the model strings. -/
def pyStrip (s : String) : String := String.mk (pyStripChars s.data)

/-- Drop an optional leading sign, reporting whether a minus was present. -/
def dropSign (cs : List Char) : Bool × List Char :=
  match cs with
  | '-' :: rest => (true, rest)
  | '+' :: rest => (false, rest)
  | _ => (false, cs)

/-- Numeric value of a digit run. -/
def digitsToNat (cs : List Char) : Nat :=
  cs.foldl (fun acc c => acc * 10 + (c.toNat - 48)) 0

/-- Exponent tail of a Python float literal: optional sign then digits. -/
def expTailOk (cs : List Char) : Bool :=
  let (_, ds) := dropSign cs
  decide (ds ≠ []) && ds.all Char.isDigit

/-- Acceptance of Python `float(s)` restricted to the finite decimal forms the
tokenizer can build (a digit-led accumulation; `inf`/`nan`/underscores can
never arise from such growth, see `NumericLiteral`). -/
def pyFloatAccepts (s : String) : Bool :=
  let cs := pyStripChars s.data
  let (_, cs) := dropSign cs
  let ip := cs.takeWhile Char.isDigit
  let rest := cs.dropWhile Char.isDigit
  match rest with
  | [] => decide (ip ≠ [])
  | '.' :: rest2 =>
    let fp := rest2.takeWhile Char.isDigit
    let rest3 := rest2.dropWhile Char.isDigit
    (decide (ip ≠ []) || decide (fp ≠ [])) &&
      (match rest3 with
       | [] => true
       | 'e' :: t => expTailOk t
       | 'E' :: t => expTailOk t
       | _ => false)
  | 'e' :: t => decide (ip ≠ []) && expTailOk t
  | 'E' :: t => decide (ip ≠ []) && expTailOk t
  | _ => false

/-- Value of Python `int(s)` on a decimal string, `none` on ValueError. -/
def pyIntParse (s : String) : Option Int :=
  let cs := pyStripChars s.data
  let (neg, ds) := dropSign cs
  if decide (ds ≠ []) && ds.all Char.isDigit then
    some (if neg then -(digitsToNat ds : Int) else (digitsToNat ds : Int))
  else
    Option.none

/-- Exact rational value of a float literal accepted by `pyFloatAccepts`,
assembled through the normalizing constructor `mkRat`. -/
def pyFloatParse (s : String) : Option Rat :=
  if pyFloatAccepts s then
    let cs := pyStripChars s.data
    let (neg, cs) := dropSign cs
    let ip := cs.takeWhile Char.isDigit
    let rest := cs.dropWhile Char.isDigit
    let (fp, expPart) :=
      match rest with
      | '.' :: rest2 =>
        (rest2.takeWhile Char.isDigit, rest2.dropWhile Char.isDigit)
      | _ => ([], rest)
    let eVal : Int :=
      match expPart with
      | 'e' :: t => (fun (p : Bool × List Char) =>
          if p.1 then -(digitsToNat p.2 : Int) else (digitsToNat p.2 : Int))
          (dropSign t)
      | 'E' :: t => (fun (p : Bool × List Char) =>
          if p.1 then -(digitsToNat p.2 : Int) else (digitsToNat p.2 : Int))
          (dropSign t)
      | _ => 0
    let mant : Int := (digitsToNat (ip ++ fp) : Int)
    let mantSigned : Int := if neg then -mant else mant
    let shift : Int := eVal - (fp.length : Int)
    some (if 0 ≤ shift then
            mkRat (mantSigned * ((10 : Int) ^ shift.toNat)) 1
          else
            mkRat mantSigned ((10 : Nat) ^ (-shift).toNat))
  else
    Option.none

/-- Truthiness of a value, as Python `bool(x)`; `Operator` instances are plain
objects and therefore truthy. -/
def pyTruthy : Value → Bool
  | .none => false
  | .bool b => b
  | .int n => n != 0
  | .float q => q != 0
  | .str s => s != ""
  | .list items => !items.isEmpty
  | .dict entries => !entries.isEmpty
  | .opObj _ => true

/-- Numeric view of an int-like value (`bool` is an `int` subtype). -/
def toIntLike : Value → Option Int
  | .bool b => some (if b then 1 else 0)
  | .int n => some n
  | _ => Option.none

/-- Numeric view of any number (`bool`, `int` or `float`). -/
def toRatLike : Value → Option Rat
  | .bool b => some (if b then 1 else 0)
  | .int n => some (n : Rat)
  | .float q => some q
  | _ => Option.none

mutual

/-- Python `==` over the modelled values: numbers compare across the numeric
tower, containers compare element-wise, cross-kind comparisons are `False`.
Two distinct `Operator` objects compare by identity, hence unequal; dict
equality is modelled on the ordered association list (no verified property
compares dicts). -/
def valueEq : Value → Value → Bool
  | .none, .none => true
  | .str a, .str b => a == b
  | .list a, .list b => valueListEq a b
  | .dict a, .dict b => valueDictEq a b
  | .opObj _, _ => false
  | _, .opObj _ => false
  | a, b =>
    match toRatLike a, toRatLike b with
    | some x, some y => x == y
    | _, _ => false

/-- Element-wise list equality. -/
def valueListEq : List Value → List Value → Bool
  | [], [] => true
  | a :: as', b :: bs => valueEq a b && valueListEq as' bs
  | _, _ => false

/-- Entry-wise dict equality (ordered model). -/
def valueDictEq : List (String × Value) → List (String × Value) → Bool
  | [], [] => true
  | (k, v) :: as', (k2, v2) :: bs => k == k2 && valueEq v v2 && valueDictEq as' bs
  | _, _ => false

end

/-- Lexicographic code-point `<` on character lists, as Python string
comparison. -/
def charListLt : List Char → List Char → Bool
  | [], [] => false
  | [], _ :: _ => true
  | _ :: _, [] => false
  | a :: as', b :: bs => a < b || (a = b && charListLt as' bs)

mutual

/-- Python `<` over the modelled values: numbers across the tower, strings by
code point, lists lexicographically; anything else raises TypeError. -/
def valueLt : Value → Value → Except Err Bool
  | .str a, .str b => .ok (charListLt a.data b.data)
  | .list a, .list b => valueListLt a b
  | a, b =>
    match toRatLike a, toRatLike b with
    | some x, some y => .ok (decide (x < y))
    | _, _ => .error (.typeErr (("'<' not supported between operand types")))

/-- Lexicographic `<` on lists, as Python list comparison. -/
def valueListLt : List Value → List Value → Except Err Bool
  | [], [] => .ok false
  | [], _ :: _ => .ok true
  | _ :: _, [] => .ok false
  | a :: as', b :: bs =>
    if valueEq a b then valueListLt as' bs else valueLt a b

end

mutual

/-- Python `<=` over the modelled values. -/
def valueLe : Value → Value → Except Err Bool
  | .str a, .str b => .ok (a == b || charListLt a.data b.data)
  | .list a, .list b => valueListLe a b
  | a, b =>
    match toRatLike a, toRatLike b with
    | some x, some y => .ok (decide (x ≤ y))
    | _, _ => .error (.typeErr (("'<=' not supported between operand types")))

/-- Lexicographic `<=` on lists. -/
def valueListLe : List Value → List Value → Except Err Bool
  | [], _ => .ok true
  | _ :: _, [] => .ok false
  | a :: as', b :: bs =>
    if valueEq a b then valueListLe as' bs else valueLt a b

end

/-- Infix (substring) test on character lists. -/
def isSubListInfix : List Char → List Char → Bool
  | p, [] => p.isEmpty
  | p, c :: cs => p.isPrefixOf (c :: cs) || isSubListInfix p cs

/-- Python `sub in s` on strings. -/
def substrOf (sub s : String) : Bool := isSubListInfix sub.data s.data

/-- Bitwise `m AND NOT n` on naturals. -/
def natLdiff (m n : Nat) : Nat := Nat.bitwise (fun a b => a && !b) m n

/-- Two's-complement bitwise AND on integers, as Python `&`. -/
def intLand : Int → Int → Int
  | .ofNat m, .ofNat n => .ofNat (m &&& n)
  | .ofNat m, .negSucc n => .ofNat (natLdiff m n)
  | .negSucc m, .ofNat n => .ofNat (natLdiff n m)
  | .negSucc m, .negSucc n => .negSucc (m ||| n)

/-- Two's-complement bitwise OR on integers, as Python `|`. -/
def intLor : Int → Int → Int
  | .ofNat m, .ofNat n => .ofNat (m ||| n)
  | .ofNat m, .negSucc n => .negSucc (natLdiff n m)
  | .negSucc m, .ofNat n => .negSucc (natLdiff m n)
  | .negSucc m, .negSucc n => .negSucc (m &&& n)

/-- Python binary `+` (`operator.add`). -/
def pyAdd (a b : Value) : Except Err Value :=
  match toIntLike a, toIntLike b with
  | some x, some y => .ok (.int (x + y))
  | _, _ =>
    match toRatLike a, toRatLike b with
    | some x, some y => .ok (.float (x + y))
    | _, _ =>
      match a, b with
      | .str x, .str y => .ok (.str (x ++ y))
      | .list x, .list y => .ok (.list (x ++ y))
      | _, _ => .error (.typeErr (("unsupported operand type(s) for +")))

/-- Python binary `-` (`operator.sub`). -/
def pySub (a b : Value) : Except Err Value :=
  match toIntLike a, toIntLike b with
  | some x, some y => .ok (.int (x - y))
  | _, _ =>
    match toRatLike a, toRatLike b with
    | some x, some y => .ok (.float (x - y))
    | _, _ => .error (.typeErr (("unsupported operand type(s) for -")))

/-- Python sequence replication `seq * n`. -/
def seqRepl (n : Int) (join : List α → α) (x : α) : α :=
  join (List.replicate n.toNat x)

/-- Python binary `*` (`operator.mul`), including sequence replication. -/
def pyMul (a b : Value) : Except Err Value :=
  match toIntLike a, toIntLike b with
  | some x, some y => .ok (.int (x * y))
  | _, _ =>
    match toRatLike a, toRatLike b with
    | some x, some y => .ok (.float (x * y))
    | _, _ =>
      match a, b with
      | .str s, .int n => .ok (.str (seqRepl n (String.join) s))
      | .int n, .str s => .ok (.str (seqRepl n (String.join) s))
      | .list l, .int n => .ok (.list (seqRepl n (List.flatten) l))
      | .int n, .list l => .ok (.list (seqRepl n (List.flatten) l))
      | _, _ => .error (.typeErr (("unsupported operand type(s) for *")))

/-- Python `/` (`operator.truediv`): always a float, zero divisor raises. -/
def pyTrueDiv (a b : Value) : Except Err Value :=
  match toRatLike a, toRatLike b with
  | some x, some y =>
    if y = 0 then .error .zeroDiv else .ok (.float (x / y))
  | _, _ => .error (.typeErr (("unsupported operand type(s) for /")))

/-- Python `//` (`operator.floordiv`): floor semantics. -/
def pyFloorDiv (a b : Value) : Except Err Value :=
  match toIntLike a, toIntLike b with
  | some x, some y =>
    if y = 0 then .error .zeroDiv else .ok (.int (Int.fdiv x y))
  | _, _ =>
    match toRatLike a, toRatLike b with
    | some x, some y =>
      if y = 0 then .error .zeroDiv else .ok (.float ((Rat.floor (x / y) : Int) : Rat))
    | _, _ => .error (.typeErr (("unsupported operand type(s) for //")))

/-- Python `%` (`operator.mod`): result takes the divisor's sign. -/
def pyMod (a b : Value) : Except Err Value :=
  match toIntLike a, toIntLike b with
  | some x, some y =>
    if y = 0 then .error .zeroDiv else .ok (.int (Int.fmod x y))
  | _, _ =>
    match toRatLike a, toRatLike b with
    | some x, some y =>
      if y = 0 then .error .zeroDiv
      else .ok (.float (x - y * ((Rat.floor (x / y) : Int) : Rat)))
    | _, _ => .error (.typeErr (("unsupported operand type(s) for %")))

/-- Python `**` (`operator.pow`) on the rational-float model; a non-integral
exponent would need real-valued powers and is reported as unmodelled. -/
def pyPow (a b : Value) : Except Err Value :=
  match toIntLike a, toIntLike b with
  | some x, some y =>
    if 0 ≤ y then .ok (.int (x ^ y.toNat))
    else if x = 0 then .error .zeroDiv
    else .ok (.float (1 / ((x : Rat) ^ (-y).toNat)))
  | _, _ =>
    match toRatLike a, toRatLike b with
    | some q, some r =>
      if r.den = 1 then
        if 0 ≤ r.num then .ok (.float (q ^ r.num.toNat))
        else if q = 0 then .error .zeroDiv
        else .ok (.float (1 / (q ^ (-r.num).toNat)))
      else .error (.unmodelled (("float pow with non-integral exponent")))
    | _, _ => .error (.typeErr (("unsupported operand type(s) for **")))

/-- Python `==` wrapped as an operator function. -/
def pyEqOp (a b : Value) : Except Err Value := .ok (.bool (valueEq a b))

/-- Python `!=` wrapped as an operator function. -/
def pyNeOp (a b : Value) : Except Err Value := .ok (.bool (!valueEq a b))

/-- Python `>` (`operator.gt`), evaluated as `b < a` over these types. -/
def pyGtOp (a b : Value) : Except Err Value := (valueLt b a).map Value.bool

/-- Python `>=` (`operator.ge`). -/
def pyGeOp (a b : Value) : Except Err Value := (valueLe b a).map Value.bool

/-- Python `<` (`operator.lt`). -/
def pyLtOp (a b : Value) : Except Err Value := (valueLt a b).map Value.bool

/-- Python `<=` (`operator.le`). -/
def pyLeOp (a b : Value) : Except Err Value := (valueLe a b).map Value.bool

/-- The table's `lambda x, y: x in y`. -/
def pyInOp (a b : Value) : Except Err Value :=
  match b with
  | .list items => .ok (.bool (items.any (fun x => valueEq a x)))
  | .dict entries => .ok (.bool (entries.any (fun kv => valueEq a (.str kv.1))))
  | .str s =>
    match a with
    | .str sub => .ok (.bool (substrOf sub s))
    | _ => .error (.typeErr (("in <string> requires string as left operand")))
  | _ => .error (.typeErr (("argument is not iterable")))

/-- Python `operator.not_`: logical negation of truthiness. -/
def pyNot (a : Value) : Except Err Value := .ok (.bool (!pyTruthy a))

/-- Python `operator.and_`: bitwise AND (bools stay bools). -/
def pyAnd (a b : Value) : Except Err Value :=
  match a, b with
  | .bool x, .bool y => .ok (.bool (x && y))
  | _, _ =>
    match toIntLike a, toIntLike b with
    | some x, some y => .ok (.int (intLand x y))
    | _, _ => .error (.typeErr (("unsupported operand type(s) for &")))

/-- Python `operator.or_`: bitwise OR (bools stay bools). -/
def pyOr (a b : Value) : Except Err Value :=
  match a, b with
  | .bool x, .bool y => .ok (.bool (x || y))
  | _, _ =>
    match toIntLike a, toIntLike b with
    | some x, some y => .ok (.int (intLor x y))
    | _, _ => .error (.typeErr (("unsupported operand type(s) for |")))

/-- Exact rational value of the IEEE-754 double `math.pi`. -/
def piVal : Value := .float ((884279719003555 : Rat) / 281474976710656)

/-- An operator's backing function; the constructor records the arity that
`Operator.argument_count` reads off the Python signature. -/
inductive OpFun where
  | const (v : Value)
  | unary (f : Value → Except Err Value)
  | binary (f : Value → Value → Except Err Value)

/-- The merged operator tables `ARITHMETIC_OPERATOR_MAP`,
`CONSTANT_OPERATOR_MAP`, `LOGICAL_OPERATOR_MAP` and `KEYWORD_OPERATOR_MAP`:
symbol to backing function. -/
def opFunction : String → Option OpFun
  | "+" => some (.binary pyAdd)
  | "-" => some (.binary pySub)
  | "*" => some (.binary pyMul)
  | "/" => some (.binary pyTrueDiv)
  | "//" => some (.binary pyFloorDiv)
  | "%" => some (.binary pyMod)
  | "**" => some (.binary pyPow)
  | "pi" => some (.const piVal)
  | "==" => some (.binary pyEqOp)
  | "!=" => some (.binary pyNeOp)
  | ">" => some (.binary pyGtOp)
  | ">=" => some (.binary pyGeOp)
  | "<" => some (.binary pyLtOp)
  | "<=" => some (.binary pyLeOp)
  | "in" => some (.binary pyInOp)
  | "not" => some (.unary pyNot)
  | "and" => some (.binary pyAnd)
  | "or" => some (.binary pyOr)
  | _ => Option.none

/-- `Operator.precedence`: logical operators share level 4, constants level 8,
the rest carry their table entry.  Total here with default 0; the tokenizer
never emits a symbol outside the table. -/
def opPrecedence : String → Nat
  | "==" => 4
  | "!=" => 4
  | ">" => 4
  | ">=" => 4
  | "<" => 4
  | "<=" => 4
  | "in" => 4
  | "pi" => 8
  | "+" => 5
  | "-" => 5
  | "*" => 6
  | "/" => 6
  | "//" => 6
  | "%" => 6
  | "**" => 7
  | "not" => 3
  | "and" => 2
  | "or" => 1
  | _ => 0

/-- `VALID_OPERATOR_CHARS`: the keys of the four operator maps in
construction order. -/
def validOperatorStrings : List String :=
  [("+"), ("-"), ("*"), ("/"), ("//"), ("%"), ("**"), ("pi"),
   ("=="), ("!="), (">"), (">="), ("<"), ("<="), ("in"),
   ("not"), ("and"), ("or")]

/-- `Operator.is_valid_operator`. -/
def is_valid_operator (s : String) : Bool := validOperatorStrings.contains s

/-- `Operator.string_could_be_operator`: some table key starts with `s`. -/
def string_could_be_operator (s : String) : Bool :=
  validOperatorStrings.any (fun op => s.data.isPrefixOf op.data)

/-- An sserver `Identifier`: root name plus optional dotted child chain. -/
inductive Identifier where
  | mk (value : String) (child : Option Identifier)

/-- Root name of an identifier (`Identifier.name`). -/
def identName : Identifier → String
  | .mk v _ => v

/-- A finalized literal token, holding the accumulated raw state of the
corresponding literal class at the moment it was appended. -/
inductive Lit where
  | strL (value : String)                    -- StringLiteral
  | numL (value : String)                    -- NumericLiteral
  | listL (items : List (Option String))     -- ListLiteral (None separators kept)
  | parenL (value : String)                  -- ParenthesisLiteral

/-- A token produced by `parse_string_to_object_list`. -/
inductive Token where
  | ident (i : Identifier)
  | op (sym : String)
  | lit (l : Lit)

/-- An in-progress literal object during tokenizing.  String literals carry
their end character (the matching quote); their escape character is `\\`. -/
inductive LitState where
  | strS (endChar : Char) (value : String)
  | numS (value : String)
  | listS (items : List (Option String))
  | parenS (value : String)

/-- Start characters of the registered literal classes
(`_literal_syntax_map` after `StringLiteral`, `ListLiteral` and
`ParenthesisLiteral` register themselves). -/
def isLiteralStart (c : Char) : Bool :=
  c = '"' || c = '\'' || c = '[' || c = '('

/-- The literal object construction `create_literal`'s docstring documents:
dispatch on the start character to the registered literal class (list
literals start as `[None]`).  Used by the docstring-intended variant of the
tokenizer. -/
def create_literal_documented (c : Char) : LitState :=
  if c = '"' then .strS '"' ("")
  else if c = '\'' then .strS '\'' ("")
  else if c = '[' then .listS [Option.none]
  else .parenS ("")

/-- `create_literal` as implemented: the guard
`if isinstance(value_type, type): raise ValueError(...)` fires for every
registered literal, because each registered `value_type` (`str`, `list`,
`Expression`) is a Python type, so construction always raises — while the
function's own docstring documents the ValueError for "a value type that is
not a type". -/
def create_literal (c : Char) : Except Err LitState :=
  .error (.valueErr (("Invalid value type for literal: ") ++
    String.singleton c))

/-- Whether the last accumulated character is the escape character `\\`
(`BaseLiteral._previous_char_was_escape` for string literals). -/
def prevWasEscape (v : String) : Bool :=
  decide (v ≠ "") && v.back = '\\'

/-- Remove the leftmost non-overlapping occurrences of a backslash-escaped
character, as Python `str.replace('\\' + c, '')`. -/
def removeEsc (c : Char) : List Char → List Char
  | [] => []
  | ['\\'] => ['\\']
  | '\\' :: d :: rest =>
    if d = c then removeEsc c rest else '\\' :: removeEsc c (d :: rest)
  | x :: rest => x :: removeEsc c rest

/-- Remove the leftmost non-overlapping occurrences of the text `None`, as
the `str.replace('None', '')` of the list error message. -/
def removeNone : List Char → List Char
  | 'N' :: 'o' :: 'n' :: 'e' :: rest => removeNone rest
  | c :: rest => c :: removeNone rest
  | [] => []

/-- Scanner state of `is_unterminated_literal`: open counts for each
registered literal start character and the quote-masking mode. -/
structure UntermState where
  dq : Nat
  sq : Nat
  br : Nat
  pr : Nat
  masking : Option Char

/-- One character of the `is_unterminated_literal` scan. -/
def untermStep (st : UntermState) (c : Char) : Except Err UntermState :=
  match st.masking with
  | some m =>
    if c = m then
      if m = '"' then .ok { st with masking := Option.none, dq := st.dq - 1 }
      else .ok { st with masking := Option.none, sq := st.sq - 1 }
    else .ok st
  | Option.none =>
    if c = '"' then .ok { st with masking := some '"', dq := st.dq + 1 }
    else if c = '\'' then .ok { st with masking := some '\'', sq := st.sq + 1 }
    else if c = '[' then .ok { st with br := st.br + 1 }
    else if c = '(' then .ok { st with pr := st.pr + 1 }
    else if c = ']' then
      if st.br > 0 then .ok { st with br := st.br - 1 }
      else .error (.exprBad (("Unexpected literal close character: ]")))
    else if c = ')' then
      if st.pr > 0 then .ok { st with pr := st.pr - 1 }
      else .error (.exprBad (("Unexpected literal close character: )")))
    else .ok st

/-- Fold `untermStep` over a character list. -/
def untermScan : UntermState → List Char → Except Err UntermState
  | st, [] => .ok st
  | st, c :: cs => do untermScan (← untermStep st c) cs

/-- `is_unterminated_literal`: after deleting escaped quotes, balanced-count
scan of all literal open/close characters, quotes masking their interior. -/
def is_unterminated_literal (value : String) : Except Err Bool :=
  if value.length ≤ 1 then .ok false
  else do
    let cleaned := removeEsc '\'' (removeEsc '"' value.data)
    let st ← untermScan ⟨0, 0, 0, 0, Option.none⟩ cleaned
    .ok (st.dq > 0 || st.sq > 0 || st.br > 0 || st.pr > 0)

/-- Replace the final item of a list literal's item list. -/
def setLastItem (items : List (Option String)) (x : Option String) :
    List (Option String) :=
  items.dropLast ++ [x]

/-- `EnclosingLiteral._char_terminates_literal` on an item string. -/
def charTerminates (endChar c : Char) (v : String) : Except Err Bool :=
  if c = endChar then do
    let u ← is_unterminated_literal v
    .ok (!u)
  else .ok false

/-- `_append_character` of the in-progress literal: returns
(terminated, consumed, updated state). -/
def litAppendChar (ls : LitState) (c : Char) :
    Except Err (Bool × Bool × LitState) :=
  match ls with
  | .strS e v =>
    if c = e then
      if prevWasEscape v then
        .ok (false, true, .strS e ((v.dropRight 1).push c))
      else
        .ok (true, true, .strS e v)
    else
      .ok (false, true, .strS e (v.push c))
  | .numS v =>
    let v2 := v.push c
    if pyFloatAccepts v2 then .ok (false, true, .numS v2)
    else .ok (true, false, .numS v)
  | .listS items =>
    if c = ',' then .ok (false, true, .listS (items ++ [Option.none]))
    else
      match items.getLast? with
      | Option.none => .error .indexErr
      | some prev =>
        if pyIsSpace c && prev.isNone then .ok (false, true, .listS items)
        else if c = ']' then
          match prev with
          | Option.none =>
            .error (.typeErr (("object of type NoneType has no len")))
          | some pv => do
            let u ← is_unterminated_literal pv
            if u then
              .ok (false, true, .listS (setLastItem items (some (pv.push c))))
            else
              .ok (true, true, .listS items)
        else
          match prev with
          | Option.none =>
            .ok (false, true, .listS (setLastItem items (some (String.singleton c))))
          | some pv =>
            .ok (false, true, .listS (setLastItem items (some (pv.push c))))
  | .parenS v =>
    if c = ')' then do
      let u ← is_unterminated_literal v
      if u then .ok (false, true, .parenS (v.push c))
      else .ok (true, true, .parenS v)
    else
      .ok (false, true, .parenS (v.push c))

/-- `_append_literal_match`: a registered literal start character arriving
while this literal is open.  Strings treat their matching quote as a
potential end; enclosing literals append normally; the numeric literal
inherits the `BaseLiteral` behaviour and raises. -/
def litAppendMatch (ls : LitState) (c : Char) (pos : Nat) :
    Except Err (Bool × LitState) :=
  match ls with
  | .strS e v =>
    if c = e then
      if prevWasEscape v then
        .ok (false, .strS e ((v.dropRight 1).push c))
      else
        .ok (true, .strS e v)
    else
      .ok (false, .strS e (v.push c))
  | .numS _ =>
    .error (.exprBad (("Unexpected literal match: ") ++ String.singleton c ++
      (" at position ") ++ natRepr pos))
  | _ => do
    let (term, _, ls2) ← litAppendChar ls c
    .ok (term, ls2)

/-- `BaseLiteral._can_terminate`: only literals without an end character
(the numeric literal) may flush at end of input. -/
def litCanTerminate : LitState → Bool
  | .numS _ => true
  | _ => false

/-- The token a finished literal state contributes. -/
def finalizeLit : LitState → Token
  | .strS _ v => .lit (.strL v)
  | .numS v => .lit (.numL v)
  | .listS items => .lit (.listL items)
  | .parenS v => .lit (.parenL v)

/-- `Identifier.append_identifier_character`: returns whether the character
was accepted and the updated identifier. -/
def appendIdentChar : Identifier → Char → (Bool × Identifier)
  | .mk v child, c =>
    match child with
    | some ch =>
      let (okc, ch2) := appendIdentChar ch c
      (okc, .mk v (some ch2))
    | Option.none =>
      if c = '.' then (true, .mk v (some (.mk ("") Option.none)))
      else
        let v2 := v.push c
        if pyIsIdentStr v2 then (true, .mk v2 Option.none)
        else (false, .mk v Option.none)

/-- Tokenizer state of `parse_string_to_object_list`: emitted tokens and the
at-most-one in-progress identifier, literal and operator candidate. -/
structure TokSt where
  acc : List Token
  curIdent : Option Identifier
  curLit : Option LitState
  curOp : Option String

/-- Steps 5 to 8 of the per-character scan: classify a fresh character. -/
def procTailPhase (st : TokSt) (pos : Nat) (c : Char) : Except Err TokSt :=
  if string_could_be_operator (String.singleton c) then
    .ok { st with curOp := some (String.singleton c) }
  else if c.isDigit then
    .ok { st with curLit := some (.numS (String.singleton c)) }
  else if pyIsIdentStr (String.singleton c) then
    .ok { st with curIdent := some (.mk (String.singleton c) Option.none) }
  else if pyIsSpace c then
    .ok st
  else
    .error (.exprBad (("Unexpected character: ") ++ String.singleton c ++
      (" at position: ") ++ natRepr pos))

/-- Step 4: try to extend an in-progress identifier, else flush it and
reclassify the character. -/
def procIdentPhase (st : TokSt) (pos : Nat) (c : Char) : Except Err TokSt :=
  match st.curIdent with
  | some idf =>
    let (okc, idf2) := appendIdentChar idf c
    if okc then .ok { st with curIdent := some idf2 }
    else
      procTailPhase
        { st with acc := st.acc ++ [.ident idf2], curIdent := Option.none }
        pos c
  | Option.none => procTailPhase st pos c

/-- Steps 2 and 3: literal start characters and delegation to an open
literal, over a literal factory (`create_literal` as implemented, or the
docstring-intended construction). -/
def procLiteralPhase (mkLit : Char → Except Err LitState) (st : TokSt)
    (pos : Nat) (c : Char) : Except Err TokSt :=
  if isLiteralStart c then
    if st.curIdent.isSome then
      .error (.exprBad (("Unexpected literal character: ") ++
        String.singleton c ++ (" at position ") ++ natRepr pos))
    else
      match st.curLit with
      | Option.none => do
        let ls ← mkLit c
        .ok { st with curLit := some ls }
      | some ls => do
        let (term, ls2) ← litAppendMatch ls c pos
        if term then
          .ok { st with acc := st.acc ++ [finalizeLit ls2], curLit := Option.none }
        else
          .ok { st with curLit := some ls2 }
  else
    match st.curLit with
    | some ls => do
      let (term, consumed, ls2) ← litAppendChar ls c
      let st2 :=
        if term then
          { st with acc := st.acc ++ [finalizeLit ls2], curLit := Option.none }
        else
          { st with curLit := some ls2 }
      if consumed then .ok st2 else procIdentPhase st2 pos c
    | Option.none => procIdentPhase st pos c

/-- Step 1 plus dispatch: finalize or extend an operator candidate, then run
the literal/identifier/classification phases. -/
def procChar (mkLit : Char → Except Err LitState) (st : TokSt) (pos : Nat)
    (c : Char) : Except Err TokSt :=
  match st.curOp with
  | Option.none => procLiteralPhase mkLit st pos c
  | some cur =>
    if string_could_be_operator (cur.push c) then
      .ok { st with curOp := some (cur.push c) }
    else if is_valid_operator cur then
      procLiteralPhase mkLit
        { st with acc := st.acc ++ [.op cur], curOp := Option.none } pos c
    else if pyIsIdentStr (cur.push c) then
      .ok { st with curIdent := some (.mk (cur.push c) Option.none),
                    curOp := Option.none }
    else if pyIsIdentStr cur then
      procLiteralPhase mkLit
        { st with acc := st.acc ++ [.ident (.mk cur Option.none)],
                  curOp := Option.none } pos c
    else
      .error (.exprBad (("Unknown operator: ") ++ cur ++ (" at position ") ++
        natRepr pos))

/-- Character loop of the tokenizer. -/
def tokGo (mkLit : Char → Except Err LitState) :
    TokSt → Nat → List Char → Except Err TokSt
  | st, _, [] => .ok st
  | st, pos, c :: cs => do tokGo mkLit (← procChar mkLit st pos c) (pos + 1) cs

/-- End-of-input flush of `parse_string_to_object_list`. -/
def tokFlush (args : String) (st : TokSt) : Except Err (List Token) := do
  let st ←
    match st.curOp with
    | Option.none => pure st
    | some cur =>
      if is_valid_operator cur then
        pure { st with acc := st.acc ++ [.op cur], curOp := Option.none }
      else if pyIsIdentStr cur then
        pure { st with acc := st.acc ++ [.ident (.mk cur Option.none)],
                       curOp := Option.none }
      else
        .error (.exprBad (("Unknown operator: ") ++ cur))
  let st : TokSt :=
    match st.curIdent with
    | some idf => { st with acc := st.acc ++ [.ident idf],
                            curIdent := Option.none }
    | Option.none => st
  match st.curLit with
  | some ls =>
    if litCanTerminate ls then
      .ok (st.acc ++ [finalizeLit ls])
    else
      .error (.exprBad (("Unexpected end of expression: ") ++ args))
  | Option.none => .ok st.acc

/-- The character-by-character tokenizer over a literal factory. -/
def tokenizeWith (mkLit : Char → Except Err LitState) (args : String) :
    Except Err (List Token) := do
  let st ← tokGo mkLit ⟨[], Option.none, Option.none, Option.none⟩ 0 args.data
  tokFlush args st

/-- `parse_string_to_object_list` (exported as `parse_string_to_expression`):
the tokenizer producing the token list of an `Expression`, with
`create_literal` as implemented. -/
def parse_string_to_object_list (args : String) : Except Err (List Token) :=
  tokenizeWith create_literal args

/-- The tokenizer with the docstring-intended `create_literal` guard
(`not isinstance(value_type, type)`), under which registered literal classes
are actually constructed. -/
def parse_string_to_object_list_documented (args : String) :
    Except Err (List Token) :=
  tokenizeWith (fun c => .ok (create_literal_documented c)) args

/-- Python `repr` of an `Operator` object. -/
def opRepr (sym : String) : String :=
  ("<Operator, operator: \"") ++ sym ++ ("\">")

/-- Python `repr` of a `ListLiteral`'s raw state (skips `None` items, then
chops the trailing separator). -/
def listLitRepr (items : List (Option String)) : String :=
  let body := items.foldl
    (fun acc it => match it with
      | Option.none => acc
      | some v => acc ++ v ++ (", "))
    (("<ListLiteral, value: ["))
  (body.dropRight 2) ++ ("]>")

/-- Python `repr`/`str` of each token class, used by
`ParseTree._get_reconstructed_expression` and error messages. -/
def tokenRepr : Token → String
  | .op sym => opRepr sym
  | .ident (.mk v _) => ("<Identifier, value: \"") ++ v ++ ("\">")
  | .lit (.strL v) => ("<StringLiteral, value: ") ++ v ++ (">")
  | .lit (.numL v) => ("<NumericLiteral, value: ") ++ v ++ (">")
  | .lit (.parenL v) => ("<ParenthesisLiteral, value: ") ++ v ++ (">")
  | .lit (.listL items) => listLitRepr items

/-- `ParseTree._get_reconstructed_expression`: space-joined token reprs. -/
def reconstructedExpression (items : List Token) : String :=
  String.intercalate (" ") (items.map tokenRepr)

/-- Message of the missing-left-operand `ExpressionSyntaxException`. -/
def missingLeftMsg (sym recon : String) : String :=
  ("Operator ") ++ opRepr sym ++ (" is missing a left operand near ") ++ recon

/-- Message of the missing-right-operand `ExpressionSyntaxException`. -/
def missingRightMsg (sym recon : String) : String :=
  ("Operator ") ++ opRepr sym ++ (" is missing a right operand near ") ++ recon

/-- Message of the multiple-residual-values `ExpressionSyntaxException`. -/
def invalidExprMsg (recon : String) : String :=
  ("Expression \"") ++ recon ++ ("\" is not valid")

/-- Membership test `name in context` for `Identifier.evaluate`
(Python `in` on the context object). -/
def pyContainsKey (ctxv : Value) (name : String) : Except Err Bool :=
  match ctxv with
  | .dict entries => .ok (entries.any (fun kv => kv.1 == name))
  | .list items => .ok (items.any (fun x => valueEq (.str name) x))
  | .str s => .ok (substrOf name s)
  | _ => .error (.typeErr (("argument of type is not iterable")))

/-- Whether `context[name]` is available (`hasattr(context, '__getitem__')`).
Subscription with a string key succeeds only on dicts. -/
def pyHasGetItem : Value → Bool
  | .dict _ => true
  | .list _ => true
  | .str _ => true
  | _ => false

/-- Subscription `context[name]` with a string key. -/
def pyGetItemStr (ctxv : Value) (name : String) : Except Err Value :=
  match ctxv with
  | .dict entries =>
    match entries.find? (fun kv => kv.1 == name) with
    | some kv => .ok kv.2
    | Option.none => .error (.keyErr name)
  | .list _ => .error (.typeErr (("list indices must be integers")))
  | .str _ => .error (.typeErr (("string indices must be integers")))
  | _ => .error (.typeErr (("object is not subscriptable")))

/-- `Identifier.evaluate`: resolve the dotted chain against the context,
segment by segment, `None` when a segment is absent. -/
def identEvaluate : Value → Identifier → Except Err Value
  | ctxv, .mk name child => do
    let mem ← pyContainsKey ctxv name
    if mem then
      if pyHasGetItem ctxv then
        let item ← pyGetItemStr ctxv name
        match child with
        | Option.none => .ok item
        | some ch => identEvaluate item ch
      else
        .ok .none
    else
      .ok .none

/-- Python `str(list)` of the raw `ListLiteral` state with `None` deleted, as
built for the unexpected-separator message. -/
def listErrListStr (items : List (Option String)) : String :=
  let inner := String.intercalate (", ")
    (items.map (fun it => match it with
      | Option.none => ("None")
      | some v => ("'") ++ v ++ ("'")))
  String.mk (removeNone ((("[") ++ inner ++ ("]")).data))

/-- Message of the unexpected-list-separator `ExpressionSyntaxException`. -/
def listSepMsg (idx : Nat) (items : List (Option String)) : String :=
  ("Unexpected list separator between list index ") ++
    intRepr ((idx : Int) - 1) ++ (" and list index ") ++ natRepr idx ++
    (" in list: ") ++ listErrListStr items

/-- `ListLiteral.evaluate`: each kept item string is itself parsed and
evaluated (via `evalSub`); a residual `None` raises. -/
def evalListItems (evalSub : Value → String → Except Err Value) (ctxv : Value)
    (items : List (Option String)) : Except Err (List Value) :=
  (items.enum).mapM (fun p =>
    match p.2 with
    | Option.none => .error (.exprBad (listSepMsg p.1 items))
    | some s => evalSub ctxv s)

/-- `BaseLiteral.evaluate` for each literal class: strings cast with `str`,
numerics try `int` then `float`, lists re-parse their items, parentheses
re-parse their accumulated text as a sub-expression. -/
def evalLit (evalSub : Value → String → Except Err Value) (ctxv : Value) :
    Lit → Except Err Value
  | .strL v => .ok (.str v)
  | .numL v =>
    match pyIntParse v with
    | some n => .ok (.int n)
    | Option.none =>
      match pyFloatParse v with
      | some q => .ok (.float q)
      | Option.none => .error (.exprBad (("Invalid literal value: ") ++ v))
  | .listL items => (evalListItems evalSub ctxv items).map Value.list
  | .parenL v => evalSub ctxv v

/-- Token evaluation as `item.evaluate(context)`; an `Operator` has no
`evaluate` method (AttributeError). -/
def tokenEvaluate (evalSub : Value → String → Except Err Value) (ctxv : Value) :
    Token → Except Err Value
  | .ident i => identEvaluate ctxv i
  | .lit l => evalLit evalSub ctxv l
  | .op sym =>
    .error (.attrErr (("Operator object has no attribute evaluate: ") ++ sym))

/-- First pass of `ParseTree.evaluate`: evaluate every non-operator token,
keeping `Operator` objects in place. -/
def mapEvalItems (evalSub : Value → String → Except Err Value) (ctxv : Value)
    (items : List Token) : Except Err (List Value) :=
  items.mapM (fun t =>
    match t with
    | .op sym => .ok (.opObj sym)
    | t => tokenEvaluate evalSub ctxv t)

/-- The `(index, operator)` pairs of the working list. -/
def collectOps (work : List Value) : List (Nat × String) :=
  (work.enum).filterMap (fun p =>
    match p.2 with
    | .opObj sym => some (p.1, sym)
    | _ => Option.none)

/-- Stable insertion of one entry into a precedence-descending list; an
earlier entry stays before later entries of equal precedence, modelling the
stability of Python `list.sort(key=precedence, reverse=True)`. -/
def sortedInsertDesc (x : Nat × String) :
    List (Nat × String) → List (Nat × String)
  | [] => [x]
  | y :: ys =>
    if opPrecedence x.2 < opPrecedence y.2 then y :: sortedInsertDesc x ys
    else x :: y :: ys

/-- Stable sort by precedence, highest first. -/
def stableSortDesc : List (Nat × String) → List (Nat × String)
  | [] => []
  | x :: xs => sortedInsertDesc x (stableSortDesc xs)

/-- Shift the recorded index of every later operator left by the consumed
slot count (the loop decrementing `operator_match[0]`).  The guard `i >
index` together with the operand checks keeps the result non-negative. -/
def shiftAfter (index k : Nat) (rest : List (Nat × String)) :
    List (Nat × String) :=
  rest.map (fun p => if index < p.1 then (p.1 - k, p.2) else p)

/-- Remove `k` consecutive elements starting at `p` (`del` repeated). -/
def eraseCount (p k : Nat) (work : List Value) : List Value :=
  match k with
  | 0 => work
  | k + 1 => eraseCount p k (work.eraseIdx p)

/-- Operator application loop of `ParseTree.evaluate`, walking the
precedence-sorted `(index, operator)` pairs over the working list.  The
structural counter starts at the pair-list length, which index shifting
preserves, so it never runs out before the list does. -/
def applyOperatorsGo (recon : String) :
    Nat → List (Nat × String) → List Value → Except Err (List Value)
  | _, [], work => .ok work
  | 0, _ :: _, _ => .error .fuel
  | n + 1, (index, sym) :: rest, work =>
    match opFunction sym with
    | Option.none => .error (.unknownOp (("Unknown operator: ") ++ sym))
    | some (.const v) =>
      if index < work.length then
        applyOperatorsGo recon n rest (work.set index v)
      else
        .error .indexErr
    | some (.unary f) =>
      if work.length ≤ index + 1 then
        .error (.exprBad (missingRightMsg sym recon))
      else do
        let arg := work.getD (index + 1) Value.none
        let v ← f arg
        applyOperatorsGo recon n (shiftAfter index 1 rest)
          (eraseCount (index + 1) 1 (work.set index v))
    | some (.binary f) =>
      if index = 0 then
        .error (.exprBad (missingLeftMsg sym recon))
      else if work.length ≤ index + 1 then
        .error (.exprBad (missingRightMsg sym recon))
      else do
        let l := work.getD (index - 1) Value.none
        let r := work.getD (index + 1) Value.none
        let v ← f l r
        applyOperatorsGo recon n (shiftAfter index 2 rest)
          (eraseCount index 2 (work.set (index - 1) v))

/-- The operator application loop at its full counter. -/
def applyOperators (recon : String) (ms : List (Nat × String))
    (work : List Value) : Except Err (List Value) :=
  applyOperatorsGo recon ms.length ms work

/-- Tail of `ParseTree.evaluate`: zero residual values yield `None`, one is
returned, more raise with the reconstructed source text. -/
def finalizeItems (recon : String) : List Value → Except Err Value
  | [] => .ok .none
  | [v] => .ok v
  | _ => .error (.exprBad (invalidExprMsg recon))

/-- `ParseTree.evaluate`. -/
def parseTree_evaluate (evalSub : Value → String → Except Err Value)
    (ctxv : Value) (items : List Token) : Except Err Value := do
  let work ← mapEvalItems evalSub ctxv items
  let work2 ← applyOperators (reconstructedExpression items)
    (stableSortDesc (collectOps work)) work
  finalizeItems (reconstructedExpression items) work2

/-- `Expression.evaluate`: a single item evaluates directly (a lone constant
operator is called, any other lone operator raises); otherwise the parse
tree resolves precedence. -/
def expressionEvaluate (evalSub : Value → String → Except Err Value)
    (ctxv : Value) (items : List Token) : Except Err Value :=
  match items with
  | [t] =>
    match t with
    | .op sym =>
      match opFunction sym with
      | some (.const v) => .ok v
      | some _ =>
        .error (.exprBad (("Unexpected operator: ") ++ opRepr sym))
      | Option.none => .error (.unknownOp (("Unknown operator: ") ++ sym))
    | t => tokenEvaluate evalSub ctxv t
  | _ => parseTree_evaluate evalSub ctxv items

/-- `parse_string_to_value`: tokenize then evaluate against the context.
The fuel bounds the recursive re-parsing performed by parenthesis and list
literals; every verified property uses an explicit sufficient fuel. -/
def parse_string_to_value : Nat → Value → String → Except Err Value
  | 0, _, _ => .error .fuel
  | fuel + 1, ctxv, s => do
    let toks ← parse_string_to_object_list s
    expressionEvaluate (parse_string_to_value fuel) ctxv toks

/-- `parse_string_to_value` over the docstring-intended tokenizer, under
which registered literal classes are actually constructed. -/
def parse_string_to_value_documented : Nat → Value → String → Except Err Value
  | 0, _, _ => .error .fuel
  | fuel + 1, ctxv, s => do
    let toks ← parse_string_to_object_list_documented s
    expressionEvaluate (parse_string_to_value_documented fuel) ctxv toks

/-- Smallest power of ten a denominator divides (searched up to 40), for
decimal rendering of exact rationals. -/
def pow10Exp (den : Nat) : Option Nat :=
  (List.range 41).find? (fun k => 10 ^ k % den = 0)

/-- Decimal text of a model float.  Renders the exact rational; on the
terminating decimals reached by the verified properties this coincides with
Python's shortest-round-trip float repr. -/
def floatStr (q : Rat) : String :=
  if q.den = 1 then intRepr q.num ++ (".0")
  else
    match pow10Exp q.den with
    | some k =>
      let m := q.num.natAbs * (10 ^ k / q.den)
      let ds := Nat.repr m
      let ds2 := String.mk (List.replicate (k + 1 - ds.length) '0') ++ ds
      (if q.num < 0 then ("-") else ("")) ++
        (ds2.dropRight k) ++ (".") ++ (ds2.takeRight k)
    | Option.none =>
      ("<float ") ++ intRepr q.num ++ ("/") ++ natRepr q.den ++ (">")

/-- Python `str` on the value kinds with non-recursive text. -/
def pyStrAtom : Value → String
  | .none => ("None")
  | .bool b => if b then ("True") else ("False")
  | .int n => intRepr n
  | .float q => floatStr q
  | .str s => s
  | .opObj sym => opRepr sym
  | .list _ => ("[]")
  | .dict _ => ("\x7b\x7d")

mutual

/-- Python `repr` of a value (strings quoted, containers recursive). -/
def pyReprV : Value → String
  | .str s => ("'") ++ s ++ ("'")
  | .list items => ("[") ++ String.intercalate (", ") (pyReprList items) ++ ("]")
  | .dict entries =>
    ("\x7b") ++ String.intercalate (", ") (pyReprDict entries) ++ ("\x7d")
  | v => pyStrAtom v

/-- Reprs of list elements. -/
def pyReprList : List Value → List String
  | [] => []
  | v :: vs => pyReprV v :: pyReprList vs

/-- Reprs of dict entries. -/
def pyReprDict : List (String × Value) → List String
  | [] => []
  | (k, v) :: kvs => ((("'") ++ k ++ ("': ")) ++ pyReprV v) :: pyReprDict kvs

end

/-- Python `str` of a value (containers fall back to their repr). -/
def pyStr : Value → String
  | .list items => pyReprV (.list items)
  | .dict entries => pyReprV (.dict entries)
  | v => pyStrAtom v

/-- Python `str.split(sep)` with a one-character separator: empty chunks are
kept, the empty string splits to one empty chunk. -/
def pySplitGo (sep : Char) : List Char → List Char → List String
  | [], cur => [String.mk cur.reverse]
  | c :: cs, cur =>
    if c = sep then String.mk cur.reverse :: pySplitGo sep cs []
    else pySplitGo sep cs (c :: cur)

/-- Python `str.split(' ')` used by `_deconstruct_tag`. -/
def pySplitChar (sep : Char) (s : String) : List String :=
  pySplitGo sep s.data []

/-- Core of `str.format(**context)` restricted to the template subset: brace
doubling and plain `\x7bname\x7d` replacement fields (no format specs). -/
def fmtGo (ctxv : Value) : List Char → Option (List Char) → Except Err String
  | [], Option.none => .ok ("")
  | [], some _ =>
    .error (.valueErr (("Single '\x7b' encountered in format string")))
  | '\x7b' :: '\x7b' :: cs, Option.none => do
    let t ← fmtGo ctxv cs Option.none
    .ok (("\x7b") ++ t)
  | '\x7d' :: '\x7d' :: cs, Option.none => do
    let t ← fmtGo ctxv cs Option.none
    .ok (("\x7d") ++ t)
  | '\x7b' :: cs, Option.none => fmtGo ctxv cs (some [])
  | '\x7d' :: _, Option.none =>
    .error (.valueErr (("Single '\x7d' encountered in format string")))
  | c :: cs, Option.none => do
    let t ← fmtGo ctxv cs Option.none
    .ok (String.singleton c ++ t)
  | '\x7d' :: cs, some field =>
    let name := String.mk field.reverse
    if pyIsIdentStr name then
      match ctxv with
      | .dict entries =>
        match entries.find? (fun kv => kv.1 == name) with
        | some kv => do
          let t ← fmtGo ctxv cs Option.none
          .ok (pyStr kv.2 ++ t)
        | Option.none => .error (.keyErr name)
      | _ => .error (.typeErr (("format context is not a mapping")))
    else
      .error (.unmodelled (("format field is not a plain name: ") ++ name))
  | c :: cs, some field => fmtGo ctxv cs (some (c :: field))

/-- `str.format(**context)` applied by `TemplateRenderer.render` after
preprocessing. -/
def pyFormat (ctxv : Value) (s : String) : Except Err String :=
  fmtGo ctxv s.data Option.none

/-- A matched `\x7b% ... %\x7d` span: tag name, re-joined argument string and
the raw matched text. -/
structure TagTok where
  name : String
  argsStr : String
  raw : String

/-- A template split into literal text and tag matches. -/
inductive Piece where
  | text (s : String)
  | tag (t : TagTok)

/-- `_deconstruct_tag`: strip the span contents and split on single spaces;
the head is the tag name.  Modelled from the spec: the remainder is re-joined
by single spaces into the raw argument string handed to tag handlers (the
renderer revision shipping `BlockTagContents` is not in the sources). -/
def deconstructTag (inner : String) : String × String :=
  let parts := pySplitChar ' ' (pyStrip inner)
  (parts.headD (""), String.intercalate (" ") parts.tail)

/-- Build the tag token of a matched span. -/
def mkTagTok (inner : List Char) : TagTok :=
  let innerStr := String.mk inner
  let nameArgs := deconstructTag innerStr
  ⟨nameArgs.1, nameArgs.2, ("\x7b%") ++ innerStr ++ ("%\x7d")⟩

/-- Find the next `%\x7d`, returning the span contents and the rest. -/
def findTagClose : List Char → List Char → Option (List Char × List Char)
  | [], _ => Option.none
  | '%' :: '\x7d' :: rest, acc => some (acc.reverse, rest)
  | c :: cs, acc => findTagClose cs (c :: acc)

/-- Fueled scan splitting a template into pieces. -/
def scanGo : Nat → List Char → List Char → List Piece
  | 0, acc, rest => [Piece.text (String.mk (acc.reverse ++ rest))]
  | fuel + 1, acc, cs =>
    match cs with
    | '\x7b' :: '%' :: rest =>
      (match findTagClose rest [] with
       | some (inner, rest2) =>
         Piece.text (String.mk acc.reverse) :: Piece.tag (mkTagTok inner) ::
           scanGo fuel [] rest2
       | Option.none => [Piece.text (String.mk (acc.reverse ++ cs))])
    | c :: cs2 => scanGo fuel (c :: acc) cs2
    | [] => [Piece.text (String.mk acc.reverse)]

/-- Modelled from the spec: scan all `\x7b% ... %\x7d` spans in source order
(leftmost, shortest).  The present source file scans with the greedy pattern
of an earlier revision; the renderer revision this follows is not in the
sources. -/
def scanTemplate (s : String) : List Piece := scanGo (s.length + 1) [] s.data

/-- Registered data of a block tag (`register.py`): end tag and sub-tags. -/
structure BlockTagSpec where
  endTag : String
  subTags : List String

/-- A block-tag registry, keyed by tag name. -/
abbrev BlockRegistry := List (String × BlockTagSpec)

/-- Registry lookup. -/
def lookupBlock (reg : BlockRegistry) (name : String) : Option BlockTagSpec :=
  (reg.find? (fun p => p.1 == name)).map (fun p => p.2)

/-- State of `_TagLogicBlock`: governing tag, its argument string, the
same-end-tag nesting depth counter and collected sub-tag matches. -/
structure TagLogicBlock where
  tag : String
  argsStr : String
  depth : Nat
  subMatches : List TagTok

/-- `_TagLogicBlock.try_add_sub_tag`: only at depth 0 and only for names in
the open block's declared sub-tag set. -/
def try_add_sub_tag (reg : BlockRegistry) (blk : TagLogicBlock) (t : TagTok) :
    Bool × TagLogicBlock :=
  if blk.depth > 0 then (false, blk)
  else
    let subTags := ((lookupBlock reg blk.tag).map BlockTagSpec.subTags).getD []
    if subTags.contains t.name then
      (true, { blk with subMatches := blk.subMatches ++ [t] })
    else
      (false, blk)

/-- `_TagLogicBlock.check_closing_tag`: the block's own end tag closes at
depth 0 and decrements at positive depth; a different registered block tag
sharing the same end tag increments the depth. -/
def check_closing_tag (reg : BlockRegistry) (blk : TagLogicBlock)
    (t : TagTok) : Except Err (Bool × TagLogicBlock) :=
  match lookupBlock reg blk.tag with
  | Option.none => .error (.keyErr blk.tag)
  | some data =>
    if t.name = data.endTag then
      if blk.depth > 0 then .ok (false, { blk with depth := blk.depth - 1 })
      else .ok (true, blk)
    else
      match lookupBlock reg t.name with
      | some other =>
        if other.endTag = data.endTag then
          .ok (false, { blk with depth := blk.depth + 1 })
        else
          .ok (false, blk)
      | Option.none => .ok (false, blk)

/-- Environment of the renderer: the block registry, the block and inline
handler dispatch and the recursive raw renderer for nested output. -/
structure TagEnv where
  blocks : BlockRegistry
  blockFn : String → Option String → Value → String → String →
    Except Err (Option String)
  inlineFn : Value → String → String → Except Err (Option String)
  renderRaw : Value → String → Except Err String

/-- Sub-tag walk of `_TagLogicBlock.render`: each sub tag is tried in
declaration order when the previous handler returned no output; running past
the end of the recorded list is the source's IndexError. -/
def renderBlockSubs (env : TagEnv) (ctxv : Value) (blkTag : String) :
    List (TagTok × String) → Except Err String
  | [] => .error .indexErr
  | (t, txt) :: rest => do
    match ← env.blockFn blkTag (some t.name) ctxv (pyStrip txt) t.argsStr with
    | some out => env.renderRaw ctxv out
    | Option.none => renderBlockSubs env ctxv blkTag rest

/-- `_TagLogicBlock.render`: call the handler on the stripped main section;
no output falls through to the sub tags (or renders the empty string when
none were declared), and handler output is recursively re-rendered. -/
def renderBlock (env : TagEnv) (ctxv : Value) (blkTag argsStr main : String)
    (subs : List (TagTok × String)) : Except Err String := do
  match ← env.blockFn blkTag Option.none ctxv (pyStrip main) argsStr with
  | some out => env.renderRaw ctxv out
  | Option.none =>
    if subs.isEmpty then env.renderRaw ctxv ("")
    else renderBlockSubs env ctxv blkTag subs

/-- Section-tracking state while a block is open: text before the first sub
tag, the completed sub-tag sections, and the section being accumulated. -/
structure OpenState where
  blk : TagLogicBlock
  mainSec : String
  done : List (TagTok × String)
  curSub : Option TagTok
  curText : String

/-- Close the current section and open a new one at a just-added sub tag. -/
def pushSection (st : OpenState) (t : TagTok) : OpenState :=
  match st.curSub with
  | Option.none =>
    { st with mainSec := st.curText, curSub := some t, curText := ("") }
  | some prev =>
    { st with done := st.done ++ [(prev, st.curText)], curSub := some t,
              curText := ("") }

/-- Sections of the block at its closing tag: main text and sub sections. -/
def finalizeSecs (st : OpenState) : String × List (TagTok × String) :=
  match st.curSub with
  | Option.none => (st.curText, [])
  | some s => (st.mainSec, st.done ++ [(s, st.curText)])

/-- The `TemplateRenderer._preprocess` loop over the scanned pieces: inline
tags run immediately while no block is open, a registered block tag opens a
block, and while one is open each match is offered to `try_add_sub_tag` then
`check_closing_tag`, with non-boundary raw text kept inside the block's
contents. -/
def preGo (env : TagEnv) (ctxv : Value) :
    List Piece → String → Option OpenState → Except Err String
  | [], out, Option.none => .ok out
  | [], _, some st =>
    .error (.unclosedBlockTag (("Unclosed block \"") ++ st.blk.tag ++ ("\"")))
  | Piece.text s :: ps, out, Option.none => preGo env ctxv ps (out ++ s) Option.none
  | Piece.text s :: ps, out, some st =>
    preGo env ctxv ps out (some { st with curText := st.curText ++ s })
  | Piece.tag t :: ps, out, Option.none =>
    if (lookupBlock env.blocks t.name).isSome then
      preGo env ctxv ps out (some
        { blk := ⟨t.name, t.argsStr, 0, []⟩, mainSec := (""), done := [],
          curSub := Option.none, curText := ("") })
    else do
      match ← env.inlineFn ctxv t.name t.argsStr with
      | some r => preGo env ctxv ps (out ++ r) Option.none
      | Option.none => .error (.unknownTag (("Unknown tag ") ++ t.name))
  | Piece.tag t :: ps, out, some st =>
    let added := try_add_sub_tag env.blocks st.blk t
    if added.1 then
      preGo env ctxv ps out (some (pushSection { st with blk := added.2 } t))
    else do
      let closed ← check_closing_tag env.blocks st.blk t
      if closed.1 then do
        let secs := finalizeSecs { st with blk := closed.2 }
        let rendered ← renderBlock env ctxv closed.2.tag closed.2.argsStr
          secs.1 secs.2
        preGo env ctxv ps (out ++ rendered) Option.none
      else
        preGo env ctxv ps out (some
          { st with blk := closed.2, curText := st.curText ++ t.raw })

/-- Preprocess a scanned template against an environment. -/
def preprocessPieces (env : TagEnv) (ctxv : Value) (pieces : List Piece) :
    Except Err String :=
  preGo env ctxv pieces ("") Option.none

/-- `validate_args_len` from `template_tag.py`, on the argument count. -/
def validate_args_len (tagName : String) (argsLen expected : Nat) :
    Except Err Bool :=
  if expected < argsLen then
    .error (.tooManyTagArgs (("Too many arguments passed to ") ++ tagName ++
      (" tag. Expected ") ++ natRepr expected ++ (" arguments, got ") ++
      natRepr argsLen ++ (".")))
  else if argsLen < expected then
    .error (.missingTagArgs (("Missing arguments passed to ") ++ tagName ++
      (" tag. Expected ") ++ natRepr expected ++ (" arguments, got ") ++
      natRepr argsLen ++ (".")))
  else
    .ok true

/-- The `if` block handler `conditional_block`: block contents exactly when
the argument expression evaluates to the boolean `True` or to `None`, else
no output. -/
def conditional_block (evalSub : Value → String → Except Err Value)
    (ctxv : Value) (blockContents args : String) :
    Except Err (Option String) := do
  let v ← evalSub ctxv args
  match v with
  | .bool true => .ok (some blockContents)
  | .none => .ok (some blockContents)
  | _ => .ok Option.none

/-- Iteration of a value (`for item in iterable`); `none` when the value has
no `__iter__`. -/
def iterValues : Value → Option (List Value)
  | .list items => some items
  | .str s => some (s.data.map (fun c => .str (String.singleton c)))
  | .dict entries => some (entries.map (fun kv => .str kv.1))
  | _ => Option.none

/-- The body loop of `for_block`: one render per item with the loop variable
laid over a copy of the context, outputs concatenated in order. -/
def forLoopRender (renderF : Value → String → Except Err String)
    (entries : List (String × Value)) (name contents : String) :
    List Value → String → Except Err String
  | [], out => .ok out
  | it :: rest, out => do
    let r ← renderF (.dict ((name, it) :: entries)) contents
    forLoopRender renderF entries name contents rest (out ++ r)

/-- The `for` block handler `for_block`: tokenize the argument string,
require exactly 3 tokens, evaluate the third, require an identifier first
token and an iterable, then re-render the body per item. -/
def for_block (evalSub : Value → String → Except Err Value)
    (renderF : Value → String → Except Err String) (ctxv : Value)
    (blockContents args : String) : Except Err String := do
  let toks ← parse_string_to_object_list args
  let _ ← validate_args_len ("for") toks.length 3
  match toks with
  | [t0, _, t2] => do
    let iterable ← tokenEvaluate evalSub ctxv t2
    match t0 with
    | .ident idf =>
      match iterValues iterable with
      | some items =>
        match ctxv with
        | .dict entries =>
          forLoopRender renderF entries (identName idf) blockContents items ("")
        | _ => .error (.typeErr (("context is not a mapping")))
      | Option.none =>
        .error (.templateArg (("for tag expects iterable as third argument")))
    | _ =>
      .error (.templateArg (("for tag expects identifier as first argument")))
  | _ => .error .indexErr

/-- The `include` inline handler, with template loading abstracted to a
store (the `Template` collaborator reads the filesystem): a missing template
yields the empty string, a non-string argument raises. -/
def include_tag (store : String → Option String)
    (evalSub : Value → String → Except Err Value) (ctxv : Value)
    (args : String) : Except Err String := do
  match ← evalSub ctxv args with
  | .str nm => .ok ((store nm).getD (""))
  | _ =>
    .error (.templateArg (("include tag expects a single string argument")))

/-- The `parse` inline handler: string form of the evaluated argument. -/
def parse_tag (evalSub : Value → String → Except Err Value) (ctxv : Value)
    (args : String) : Except Err String := do
  let v ← evalSub ctxv args
  .ok (pyStr v)

/-- The registered built-in block tags (`template_tag.py` registrations). -/
def builtin_block_tags : BlockRegistry :=
  [("if", ⟨("endif"), [("elif"), ("else")]⟩),
   ("for", ⟨("endfor"), []⟩)]

/-- Render-then-format, as `TemplateRenderer.render`. -/
def renderFullWith (rraw : Value → String → Except Err String) (ctxv : Value)
    (s : String) : Except Err String := do
  pyFormat ctxv (← rraw ctxv s)

/-- Modelled from the spec: the tag environment wiring the registered
built-in handlers to the preprocess loop (the renderer revision dispatching
through `register.py` is not in the sources; `elif`/`else` share the `if`
handler as their registration declares no override). -/
def builtinEnv (store : String → Option String)
    (evalSub : Value → String → Except Err Value)
    (rraw : Value → String → Except Err String) : TagEnv :=
  { blocks := builtin_block_tags,
    blockFn := fun name _ ctxv contents args =>
      match name with
      | "if" => conditional_block evalSub ctxv contents args
      | "for" =>
        (for_block evalSub (renderFullWith rraw) ctxv contents args).map some
      | other => .error (.unknownTag (("Unknown tag ") ++ other)),
    inlineFn := fun ctxv name args =>
      match name with
      | "include" => (include_tag store evalSub ctxv args).map some
      | "parse" => (parse_tag evalSub ctxv args).map some
      | _ => .ok Option.none,
    renderRaw := rraw }

/-- `TemplateRenderer._render_raw` with the built-in tags: preprocess the
scanned template; the fuel bounds nested re-rendering. -/
def renderRawB (store : String → Option String) :
    Nat → Value → String → Except Err String
  | 0, _, _ => .error .fuel
  | fuel + 1, ctxv, s =>
    preprocessPieces
      (builtinEnv store (parse_string_to_value fuel) (renderRawB store fuel))
      ctxv (scanTemplate s)

/-- `TemplateRenderer.render` with the built-in tags: raw render then
`str.format` substitution against the context. -/
def renderFullB (store : String → Option String) (fuel : Nat) (ctxv : Value)
    (s : String) : Except Err String :=
  renderFullWith (renderRawB store fuel) ctxv s

/-- A registry with two distinct block tags deliberately sharing one end-tag
name, exercising the depth counter. -/
def demoBlocks : BlockRegistry :=
  [("outer", ⟨("end"), []⟩), ("inner", ⟨("end"), []⟩)]

/-- A pass-through renderer over `demoBlocks`: every block handler returns
its contents unchanged, so the output shows exactly which text each block
captured. -/
def demoRender : Nat → Value → String → Except Err String
  | 0, _, _ => .error .fuel
  | fuel + 1, ctxv, s =>
    preprocessPieces
      { blocks := demoBlocks,
        blockFn := fun _ _ _ contents _ => .ok (some contents),
        inlineFn := fun _ _ _ => .ok Option.none,
        renderRaw := demoRender fuel }
      ctxv (scanTemplate s)

/-- Feed tag matches to an open block's `check_closing_tag` in order,
returning the state when a match closes the block (with the closing match)
or the final state when none does. -/
def feedClosingTags (reg : BlockRegistry) :
    TagLogicBlock → List TagTok → Except Err (TagLogicBlock × Option TagTok)
  | blk, [] => .ok (blk, Option.none)
  | blk, t :: ts => do
    let r ← check_closing_tag reg blk t
    if r.1 then .ok (r.2, some t) else feedClosingTags reg r.2 ts

/-- `ParseTree.evaluate` with the object state made explicit: the expression
token list held by the tree is copied into the working list
(`evaluated_items = list(map(...))`) and only that copy is spliced; the
held expression is returned alongside the result. -/
def parseTree_evaluate_tracked (evalSub : Value → String → Except Err Value)
    (ctxv : Value) (items : List Token) : Except Err Value × List Token :=
  (parseTree_evaluate evalSub ctxv items, items)

/-- C1 (code bug): under the guard `create_literal`'s docstring documents,
tokenizing each supported literal form and evaluating against the empty
context round-trips to the exact source value; but as implemented the
inverted `isinstance(value_type, type)` guard raises `ValueError` for every
registered literal class, so the string and list forms crash, while the
numeric forms (which construct `NumericLiteral` directly, bypassing
`create_literal`) round-trip as claimed. -/
theorem literal_roundtrip_c1 :
    parse_string_to_value 8 (.dict []) ("123") = .ok (.int 123) ∧
    parse_string_to_value 8 (.dict []) ("12.5") = .ok (.float (mkRat 25 2)) ∧
    mkRat 25 2 = (12.5 : Rat) ∧
    parse_string_to_value 8 (.dict []) ("\"abc\"") =
      .error (.valueErr (("Invalid value type for literal: \""))) ∧
    parse_string_to_value 8 (.dict []) ("[1, 2, 3]") =
      .error (.valueErr (("Invalid value type for literal: ["))) ∧
    parse_string_to_value_documented 8 (.dict []) ("\"abc\"") =
      .ok (.str ("abc")) ∧
    parse_string_to_value_documented 8 (.dict []) ("123") = .ok (.int 123) ∧
    parse_string_to_value_documented 8 (.dict []) ("12.5") =
      .ok (.float (mkRat 25 2)) ∧
    parse_string_to_value_documented 8 (.dict []) ("[1, 2, 3]") =
      .ok (.list [.int 1, .int 2, .int 3]) :=
  ⟨rfl, rfl, by norm_num [mkRat, Rat.normalize, Rat.maybeNormalize],
   rfl, rfl, rfl, rfl, rfl, rfl⟩

/-- C2 (code bug): evaluating `2 + 3 * 4` against the empty context returns
14 — multiplication (precedence 6) binds before addition (precedence 5); but
`(2 + 3) * 4` crashes with the inverted `create_literal` guard's
`ValueError` as implemented, and returns 20 only under the guard the
docstring documents, where the parenthesized sub-expression is evaluated as
a whole before the surrounding operator. -/
theorem operator_precedence_c2 :
    parse_string_to_value 8 (.dict []) ("2 + 3 * 4") = .ok (.int 14) ∧
    parse_string_to_value 8 (.dict []) ("(2 + 3) * 4") =
      .error (.valueErr (("Invalid value type for literal: ("))) ∧
    parse_string_to_value_documented 8 (.dict []) ("2 + 3 * 4") =
      .ok (.int 14) ∧
    parse_string_to_value_documented 8 (.dict []) ("(2 + 3) * 4") =
      .ok (.int 20) ∧
    opPrecedence ("*") = 6 ∧ opPrecedence ("+") = 5 :=
  ⟨rfl, rfl, rfl, rfl, rfl, rfl⟩

/-- C9: the keyword operators `and` and `or` are bound to the bitwise
functions `operator.and_`/`operator.or_`, not short-circuit logic: on boolean
operands the result is the logical conjunction/disjunction, on integer
operands the bitwise result; evaluating `1 and 2` against the empty context
yields 0, not 2. -/
theorem keyword_and_or_bitwise_c9 :
    opFunction ("and") = some (.binary pyAnd) ∧
    opFunction ("or") = some (.binary pyOr) ∧
    (∀ a b : Bool, pyAnd (.bool a) (.bool b) = .ok (.bool (a && b)) ∧
      pyOr (.bool a) (.bool b) = .ok (.bool (a || b))) ∧
    (∀ m n : Int, pyAnd (.int m) (.int n) = .ok (.int (intLand m n)) ∧
      pyOr (.int m) (.int n) = .ok (.int (intLor m n))) ∧
    parse_string_to_value 4 (.dict []) ("1 and 2") = .ok (.int 0) :=
  ⟨rfl, rfl, fun _ _ => ⟨rfl, rfl⟩, fun _ _ => ⟨rfl, rfl⟩, rfl⟩

/-- C10: evaluating an `Expression` does not modify it: the evaluator builds
a separate working list (`evaluated_items`), the held token sequence is
returned identical, and re-evaluating the returned expression with the same
context gives the same value. -/
theorem expression_unchanged_c10 :
    ∀ (evalSub : Value → String → Except Err Value) (ctxv : Value)
      (items : List Token),
      (parseTree_evaluate_tracked evalSub ctxv items).2 = items ∧
      (parseTree_evaluate_tracked evalSub ctxv
          ((parseTree_evaluate_tracked evalSub ctxv items).2)).1 =
        (parseTree_evaluate_tracked evalSub ctxv items).1 :=
  fun _ _ _ => ⟨rfl, rfl⟩

/-- C7 fails as stated: evaluating `a.b` against the context
`{'a': {'b': 5}}` does not return 5 — the tokenizer first buffers `a` as a
potential keyword-operator prefix (of `and`), flushes it as a finished
identifier when `.` arrives, and then rejects the `.` with an
`ExpressionSyntaxException`. -/
theorem identifier_dotted_c7_counterexample :
    parse_string_to_value 8 (.dict [(("a"), .dict [(("b"), .int 5)])])
        ("a.b") =
      .error (.exprBad (("Unexpected character: . at position: 1"))) ∧
    parse_string_to_value 8 (.dict [(("a"), .dict [(("b"), .int 5)])])
        ("a.b") ≠
      .ok (.int 5) := by
  refine ⟨rfl, fun h => ?_⟩
  rw [show parse_string_to_value 8
      (.dict [(("a"), .dict [(("b"), .int 5)])]) ("a.b") =
      .error (.exprBad (("Unexpected character: . at position: 1"))) from rfl]
    at h
  simp at h

/-- C7 amended: `Identifier.evaluate` resolves its dotted chain segment by
segment against the context mapping and returns `None` whenever a segment is
absent; end to end this holds for identifiers that do not begin with a
keyword-operator prefix: with context `{'x': {'b': 5}}`, `x.b` evaluates to
5 and `x.zz` to `None`, and `missing` evaluates to `None` against
`{'a': {'b': 5}}` (whereas `a.b` raises, see the counterexample). -/
theorem identifier_resolution_c7 :
    (∀ (entries : List (String × Value)) name child,
      entries.any (fun kv => kv.1 == name) = false →
      identEvaluate (.dict entries) (.mk name child) = .ok .none) ∧
    (∀ (entries : List (String × Value)) name kv,
      entries.find? (fun kv2 => kv2.1 == name) = some kv →
      identEvaluate (.dict entries) (.mk name Option.none) = .ok kv.2) ∧
    (∀ (entries : List (String × Value)) name kv ch,
      entries.find? (fun kv2 => kv2.1 == name) = some kv →
      identEvaluate (.dict entries) (.mk name (some ch)) =
        identEvaluate kv.2 ch) ∧
    parse_string_to_value 8 (.dict [(("x"), .dict [(("b"), .int 5)])])
        ("x.b") = .ok (.int 5) ∧
    parse_string_to_value 8 (.dict [(("x"), .dict [(("b"), .int 5)])])
        ("x.zz") = .ok .none ∧
    parse_string_to_value 8 (.dict [(("a"), .dict [(("b"), .int 5)])])
        ("missing") = .ok .none := by
  refine ⟨?_, ?_, ?_, rfl, rfl, rfl⟩
  · intro entries name child h
    simp [identEvaluate, pyContainsKey, h, Bind.bind, Except.bind]
  · intro entries name kv h
    have hmem := List.mem_of_find?_eq_some h
    have hp := List.find?_some h
    have hany : entries.any (fun kv2 => kv2.1 == name) = true :=
      List.any_eq_true.mpr ⟨kv, hmem, hp⟩
    simp [identEvaluate, pyContainsKey, pyHasGetItem, pyGetItemStr, hany, h, Bind.bind, Except.bind]
  · intro entries name kv ch h
    have hmem := List.mem_of_find?_eq_some h
    have hp := List.find?_some h
    have hany : entries.any (fun kv2 => kv2.1 == name) = true :=
      List.any_eq_true.mpr ⟨kv, hmem, hp⟩
    simp [identEvaluate, pyContainsKey, pyHasGetItem, pyGetItemStr, hany, h, Bind.bind, Except.bind]

/-- Witness for the amended C7 theorem at concrete inputs. -/
theorem identifier_resolution_c7_witness :
    identEvaluate (.dict [(("k"), .int 9)]) (.mk ("zz") Option.none) =
      .ok .none ∧
    identEvaluate (.dict [(("k"), .int 9)]) (.mk ("k") Option.none) =
      .ok (.int 9) ∧
    identEvaluate (.dict [(("k"), .dict [(("j"), .int 7)])])
        (.mk ("k") (some (.mk ("j") Option.none))) =
      identEvaluate (.dict [(("j"), .int 7)]) (.mk ("j") Option.none) :=
  ⟨identifier_resolution_c7.1 [(("k"), .int 9)] ("zz") Option.none (by decide),
   identifier_resolution_c7.2.1 [(("k"), .int 9)] ("k") (("k"), .int 9) rfl,
   identifier_resolution_c7.2.2.1 [(("k"), .dict [(("j"), .int 7)])] ("k")
     (("k"), .dict [(("j"), .int 7)]) (.mk ("j") Option.none) rfl⟩

/-- Erasing an index shortens a list by at most one. -/
theorem length_eraseIdx_ge (l : List Value) (i : Nat) :
    l.length - 1 ≤ (l.eraseIdx i).length := by
  induction l generalizing i with
  | nil => simp
  | cons a as ih =>
    cases i with
    | zero => simp
    | succ j =>
      simp only [List.eraseIdx, List.length_cons]
      have := ih j
      omega

/-- The operator application loop never empties a nonempty working list:
every application writes its result back into the list. -/
theorem applyOperatorsGo_length_pos :
    ∀ (n : Nat) (ms : List (Nat × String)) (recon : String)
      (work work2 : List Value),
      applyOperatorsGo recon n ms work = .ok work2 →
      0 < work.length → 0 < work2.length := by
  intro n
  induction n with
  | zero =>
    intro ms recon work work2 hgo hw
    cases ms with
    | nil =>
      simp only [applyOperatorsGo] at hgo
      cases hgo
      exact hw
    | cons m rest =>
      simp only [applyOperatorsGo] at hgo
      exact Except.noConfusion hgo
  | succ n ih =>
    intro ms recon work work2 hgo hw
    cases ms with
    | nil =>
      simp only [applyOperatorsGo] at hgo
      cases hgo
      exact hw
    | cons m rest =>
      obtain ⟨index, sym⟩ := m
      simp only [applyOperatorsGo] at hgo
      cases hop : opFunction sym with
      | none =>
        simp only [hop] at hgo
        exact Except.noConfusion hgo
      | some fn =>
        cases fn with
        | const v =>
          simp only [hop] at hgo
          by_cases hidx : index < work.length
          · rw [if_pos hidx] at hgo
            have := ih _ _ _ _ hgo (by simpa using hw)
            exact this
          · rw [if_neg hidx] at hgo
            exact Except.noConfusion hgo
        | unary f =>
          simp only [hop] at hgo
          by_cases hlen : work.length ≤ index + 1
          · rw [if_pos hlen] at hgo
            exact Except.noConfusion hgo
          · rw [if_neg hlen] at hgo
            cases hf : f (work.getD (index + 1) Value.none) with
            | error e =>
              rw [hf] at hgo
              simp only [Bind.bind, Except.bind] at hgo
              exact Except.noConfusion hgo
            | ok v =>
              rw [hf] at hgo
              simp only [Bind.bind, Except.bind] at hgo
              refine ih _ _ _ _ hgo ?_
              have h1 : index + 1 < work.length := by omega
              have h2 := length_eraseIdx_ge (work.set index v) (index + 1)
              simp only [eraseCount, List.length_set] at h2 ⊢
              omega
        | binary f =>
          simp only [hop] at hgo
          by_cases hidx : index = 0
          · rw [if_pos hidx] at hgo
            exact Except.noConfusion hgo
          · rw [if_neg hidx] at hgo
            by_cases hlen : work.length ≤ index + 1
            · rw [if_pos hlen] at hgo
              exact Except.noConfusion hgo
            · rw [if_neg hlen] at hgo
              cases hf : f (work.getD (index - 1) Value.none)
                  (work.getD (index + 1) Value.none) with
              | error e =>
                rw [hf] at hgo
                simp only [Bind.bind, Except.bind] at hgo
                exact Except.noConfusion hgo
              | ok v =>
                rw [hf] at hgo
                simp only [Bind.bind, Except.bind] at hgo
                refine ih _ _ _ _ hgo ?_
                have h1 : index + 1 < work.length := by omega
                have h2 := length_eraseIdx_ge (work.set (index - 1) v) index
                have h3 := length_eraseIdx_ge
                  ((work.set (index - 1) v).eraseIdx index) index
                simp only [eraseCount, List.length_set] at h2 h3 ⊢
                omega

/-- A cons mapM over Except never returns the empty list. -/
theorem mapM_cons_ne_nil (f : Token → Except Err Value) (t : Token)
    (ts : List Token) : List.mapM f (t :: ts) ≠ .ok [] := by
  intro h
  simp only [List.mapM_cons] at h
  cases hv : f t with
  | error e =>
    rw [hv] at h
    simp only [Bind.bind, Except.bind] at h
    exact Except.noConfusion h
  | ok v =>
    rw [hv] at h
    simp only [Bind.bind, Except.bind] at h
    cases hvs : ts.mapM f with
    | error e =>
      rw [hvs] at h
      simp only [Bind.bind, Except.bind] at h
      exact Except.noConfusion h
    | ok vs =>
      rw [hvs] at h
      simp only [Bind.bind, Except.bind, pure, Except.pure] at h
      simp at h

/-- A successful first evaluation pass yields an empty working list exactly
for the empty expression. -/
theorem mapEvalItems_nil_iff (evalSub : Value → String → Except Err Value)
    (ctxv : Value) (items : List Token) (work : List Value)
    (h : mapEvalItems evalSub ctxv items = .ok work) :
    items = [] ↔ work = [] := by
  cases items with
  | nil =>
    simp only [mapEvalItems, List.mapM_nil, pure, Except.pure] at h
    cases h
    simp
  | cons t ts =>
    constructor
    · intro h2
      exact absurd h2 (by simp)
    · intro h2
      subst h2
      exact absurd h (mapM_cons_ne_nil _ t ts)

/-- C5: after all operators have been applied, the evaluator returns the
single remaining value; zero remaining values (possible only for the empty
original expression) yield `None`; more than one remaining raises an
`ExpressionSyntaxException` whose message reports the reconstructed source
text. -/
theorem residual_values_c5 :
    (∀ recon, finalizeItems recon [] = .ok Value.none) ∧
    (∀ recon v, finalizeItems recon [v] = .ok v) ∧
    (∀ recon (work : List Value), 2 ≤ work.length →
      finalizeItems recon work = .error (.exprBad (invalidExprMsg recon))) ∧
    (∀ evalSub ctxv items work work2,
      mapEvalItems evalSub ctxv items = .ok work →
      applyOperators (reconstructedExpression items)
        (stableSortDesc (collectOps work)) work = .ok work2 →
      parseTree_evaluate evalSub ctxv items =
        finalizeItems (reconstructedExpression items) work2 ∧
      (work2 = [] → items = [])) := by
  refine ⟨fun _ => rfl, fun _ _ => rfl, ?_, ?_⟩
  · intro recon work hlen
    match work with
    | [] => simp at hlen
    | [v] => simp at hlen
    | a :: b :: rest => rfl
  · intro evalSub ctxv items work work2 hm ha
    constructor
    · simp only [parseTree_evaluate, hm, applyOperators] at *
      simp only [Bind.bind, Except.bind, ha]
    · intro h2
      subst h2
      by_contra hitems
      have hiff := mapEvalItems_nil_iff evalSub ctxv items work hm
      have hwork : work ≠ [] := fun hw0 => hitems (hiff.mpr hw0)
      have hpos : 0 < work.length := by
        cases work with
        | nil => exact absurd rfl hwork
        | cons a as => simp
      have := applyOperatorsGo_length_pos _ _ _ _ _ ha hpos
      simp at this

/-- Witness for the C5 theorem at concrete inputs. -/
theorem residual_values_c5_witness :
    finalizeItems ("r") [.int 1, .int 2] =
      .error (.exprBad (invalidExprMsg ("r"))) ∧
    parseTree_evaluate (fun _ _ => .error .fuel) (.dict [])
        [.lit (.numL ("1"))] =
      finalizeItems (reconstructedExpression [.lit (.numL ("1"))]) [.int 1] :=
  ⟨residual_values_c5.2.2.1 ("r") [.int 1, .int 2] (by decide),
   ((residual_values_c5.2.2.2 (fun _ _ => .error .fuel) (.dict [])
      [.lit (.numL ("1"))] [.int 1] [.int 1] rfl rfl).1)⟩

/-- C6: tokenizing and evaluating `1 +` raises an
`ExpressionSyntaxException` for the missing right operand; in general a
binary operator whose left neighbour is off the front of the working list
raises the missing-left message, and a unary or binary operator whose right
neighbour is off the end raises the missing-right message, each naming the
operand side. -/
theorem missing_operand_c6 :
    (∀ recon sym f rest (work : List Value),
      opFunction sym = some (.binary f) →
      applyOperators recon ((0, sym) :: rest) work =
        .error (.exprBad (missingLeftMsg sym recon))) ∧
    (∀ recon sym f index rest (work : List Value),
      opFunction sym = some (.binary f) → index ≠ 0 →
      work.length ≤ index + 1 →
      applyOperators recon ((index, sym) :: rest) work =
        .error (.exprBad (missingRightMsg sym recon))) ∧
    (∀ recon sym f index rest (work : List Value),
      opFunction sym = some (.unary f) → work.length ≤ index + 1 →
      applyOperators recon ((index, sym) :: rest) work =
        .error (.exprBad (missingRightMsg sym recon))) ∧
    parse_string_to_value 8 (.dict []) ("1 +") =
      .error (.exprBad (("Operator <Operator, operator: \"+\"> is missing ") ++
        ("a right operand near <NumericLiteral, value: 1 > ") ++
        ("<Operator, operator: \"+\">"))) := by
  refine ⟨?_, ?_, ?_, rfl⟩
  · intro recon sym f rest work hop
    simp [applyOperators, applyOperatorsGo, hop]
  · intro recon sym f index rest work hop hidx hlen
    simp only [applyOperators, List.length_cons, applyOperatorsGo, hop,
      if_neg hidx, if_pos hlen]
  · intro recon sym f index rest work hop hlen
    simp only [applyOperators, List.length_cons, applyOperatorsGo, hop,
      if_pos hlen]

/-- Witness for the C6 theorem at concrete inputs. -/
theorem missing_operand_c6_witness :
    applyOperators ("r") [(0, ("+"))] [.opObj ("+"), .int 1] =
      .error (.exprBad (missingLeftMsg ("+") ("r"))) ∧
    applyOperators ("r") [(1, ("+"))] [.int 1, .opObj ("+")] =
      .error (.exprBad (missingRightMsg ("+") ("r"))) ∧
    applyOperators ("r") [(1, ("not"))] [.int 1, .opObj ("not")] =
      .error (.exprBad (missingRightMsg ("not") ("r"))) :=
  ⟨missing_operand_c6.1 ("r") ("+") pyAdd [] [.opObj ("+"), .int 1] rfl,
   missing_operand_c6.2.1 ("r") ("+") pyAdd 1 [] [.int 1, .opObj ("+")] rfl
     (by decide) (by decide),
   missing_operand_c6.2.2.1 ("r") ("not") pyNot 1 [] [.int 1, .opObj ("not")]
     rfl (by decide)⟩

/-- C3 fails as stated: rendering the template
`\x7b% if False %\x7dA\x7b% else %\x7dB\x7b% endif %\x7d` against the empty
context yields `A`, not `B` — `False` is tokenized as an identifier, resolves
to `None` in the empty context, and `None` triggers the block contents. -/
theorem if_else_template_c3_counterexample :
    renderFullB (fun _ => Option.none) 4 (.dict [])
        ("\x7b% if False %\x7dA\x7b% else %\x7dB\x7b% endif %\x7d") =
      .ok ("A") ∧
    renderFullB (fun _ => Option.none) 4 (.dict [])
        ("\x7b% if False %\x7dA\x7b% else %\x7dB\x7b% endif %\x7d") ≠
      .ok ("B") := by
  refine ⟨rfl, fun h => ?_⟩
  rw [show renderFullB (fun _ => Option.none) 4 (.dict [])
      ("\x7b% if False %\x7dA\x7b% else %\x7dB\x7b% endif %\x7d") =
      .ok ("A") from rfl] at h
  injection h with h2
  exact absurd h2 (by decide)

/-- C3 amended: for every context and block body the `if` block tag returns
its block contents exactly when its argument expression evaluates to the
boolean `True` or to `None` (empty condition defaults to true), and
otherwise signals no output so the declared sub-tags are tried in
declaration order; rendering the `if False` / `else` template against a
context binding `False` to the boolean false yields `B`, and rendering
`\x7b% if True %\x7dA\x7b% endif %\x7d` against the empty context yields
`A`. -/
theorem if_block_truth_c3 :
    (∀ (evalSub : Value → String → Except Err Value) ctxv body args v,
      evalSub ctxv args = .ok v →
      (conditional_block evalSub ctxv body args = .ok (some body) ↔
        (v = .bool true ∨ v = .none)) ∧
      (v ≠ .bool true → v ≠ .none →
        conditional_block evalSub ctxv body args = .ok Option.none)) ∧
    (∀ env ctxv tag argsStr main subs,
      env.blockFn tag Option.none ctxv (pyStrip main) argsStr =
        .ok Option.none →
      subs ≠ [] →
      renderBlock env ctxv tag argsStr main subs =
        renderBlockSubs env ctxv tag subs) ∧
    renderFullB (fun _ => Option.none) 4 (.dict [(("False"), .bool false)])
        ("\x7b% if False %\x7dA\x7b% else %\x7dB\x7b% endif %\x7d") =
      .ok ("B") ∧
    renderFullB (fun _ => Option.none) 4 (.dict [])
        ("\x7b% if True %\x7dA\x7b% endif %\x7d") = .ok ("A") := by
  refine ⟨?_, ?_, rfl, rfl⟩
  · intro evalSub ctxv body args v h
    constructor
    · simp only [conditional_block, h, Bind.bind, Except.bind]
      cases v
      case bool b => cases b <;> simp
      all_goals simp
    · intro h1 h2
      simp only [conditional_block, h, Bind.bind, Except.bind]
  · intro env ctxv tag argsStr main subs h hsubs
    have hne : subs.isEmpty = false := by
      cases subs with
      | nil => exact absurd rfl hsubs
      | cons a as => rfl
    simp [renderBlock, h, Bind.bind, Except.bind, hne]

/-- Witness for the amended C3 theorem at concrete inputs. -/
theorem if_block_truth_c3_witness :
    conditional_block (fun _ _ => .ok (.bool true)) (.dict []) ("A") ("") =
      .ok (some ("A")) ∧
    conditional_block (fun _ _ => .ok (.bool false)) (.dict []) ("A") ("") =
      .ok Option.none :=
  ⟨((if_block_truth_c3.1 (fun _ _ => .ok (.bool true)) (.dict []) ("A") ("")
      (.bool true) rfl).1).mpr (Or.inl rfl),
   (if_block_truth_c3.1 (fun _ _ => .ok (.bool false)) (.dict []) ("A") ("")
      (.bool false) rfl).2 (by simp) (by simp)⟩

/-- Whether a token is an `Identifier` (`isinstance(identifier, Identifier)`). -/
def tokenIsIdent : Token → Bool
  | .ident _ => true
  | _ => false

/-- Folding string append factors over a prepended accumulator. -/
theorem foldl_append_init : ∀ (rs : List String) (a b : String),
    a ++ rs.foldl (fun x y => x ++ y) b = rs.foldl (fun x y => x ++ y) (a ++ b) := by
  intro rs
  induction rs with
  | nil => intro a b; rfl
  | cons s ss ih =>
    intro a b
    simp only [List.foldl_cons]
    rw [ih, String.append_assoc]

/-- The accumulator loop of `for_block` equals the in-order concatenation of
the per-item renders. -/
theorem forLoopRender_eq (renderF : Value → String → Except Err String)
    (entries : List (String × Value)) (name contents : String) :
    ∀ (items : List Value) (out : String),
      forLoopRender renderF entries name contents items out =
        (items.mapM (fun it =>
          renderF (.dict ((name, it) :: entries)) contents)).map
          (fun outs => out ++ String.join outs) := by
  intro items
  induction items with
  | nil =>
    intro out
    simp only [forLoopRender, List.mapM_nil, pure, Except.pure, Except.map]
    simp [String.join]
  | cons it rest ih =>
    intro out
    simp only [forLoopRender, List.mapM_cons]
    cases hr : renderF (.dict ((name, it) :: entries)) contents with
    | error e =>
      simp only [hr, Bind.bind, Except.bind, Except.map]
    | ok r =>
      simp only [hr, Bind.bind, Except.bind, ih (out ++ r)]
      cases hrest : rest.mapM (fun it =>
          renderF (.dict ((name, it) :: entries)) contents) with
      | error e => simp only [Except.map]
      | ok rs =>
        simp only [Except.map, pure, Except.pure]
        have h2 : r ++ String.join rs = String.join (r :: rs) := by
          simp only [String.join, List.foldl_cons, String.empty_append]
          rw [foldl_append_init, String.append_empty]
        rw [String.append_assoc, h2]

/-- C4: `for_block` tokenizes its argument string and requires exactly 3
tokens, raising the too-many / missing argument-count errors otherwise; with
3 tokens it evaluates the third, raises a type error if the first token is
not an identifier or the third does not evaluate to an iterable, and
otherwise re-renders the block body once per item in iteration order with
the loop variable laid over a copy of the context, concatenating the
outputs in order. -/
theorem for_block_contract_c4 :
    (∀ evalSub renderF ctxv body args toks,
      parse_string_to_object_list args = .ok toks → 3 < toks.length →
      for_block evalSub renderF ctxv body args =
        .error (.tooManyTagArgs ((("Too many arguments passed to ") ++
          ("for") ++ (" tag. Expected ") ++ natRepr 3 ++
          (" arguments, got ") ++ natRepr toks.length ++ ("."))))) ∧
    (∀ evalSub renderF ctxv body args toks,
      parse_string_to_object_list args = .ok toks → toks.length < 3 →
      for_block evalSub renderF ctxv body args =
        .error (.missingTagArgs ((("Missing arguments passed to ") ++
          ("for") ++ (" tag. Expected ") ++ natRepr 3 ++
          (" arguments, got ") ++ natRepr toks.length ++ ("."))))) ∧
    (∀ evalSub renderF ctxv body args t0 t1 t2 v,
      parse_string_to_object_list args = .ok [t0, t1, t2] →
      tokenEvaluate evalSub ctxv t2 = .ok v →
      (tokenIsIdent t0 = false →
        for_block evalSub renderF ctxv body args =
          .error (.templateArg
            (("for tag expects identifier as first argument")))) ∧
      (∀ idf, t0 = .ident idf → iterValues v = Option.none →
        for_block evalSub renderF ctxv body args =
          .error (.templateArg
            (("for tag expects iterable as third argument")))) ∧
      (∀ idf entries items, t0 = .ident idf → ctxv = .dict entries →
        iterValues v = some items →
        for_block evalSub renderF ctxv body args =
          (items.mapM (fun it =>
            renderF (.dict ((identName idf, it) :: entries)) body)).map
            String.join)) := by
  refine ⟨?_, ?_, ?_⟩
  · intro evalSub renderF ctxv body args toks hp hlen
    simp only [for_block, hp, Bind.bind, Except.bind, validate_args_len,
      if_pos hlen]
  · intro evalSub renderF ctxv body args toks hp hlen
    have h1 : ¬ (3 < toks.length) := by omega
    simp only [for_block, hp, Bind.bind, Except.bind, validate_args_len,
      if_neg h1, if_pos hlen]
  · intro evalSub renderF ctxv body args t0 t1 t2 v hp he
    have hval : validate_args_len ("for") ([t0, t1, t2].length) 3 =
        .ok true := rfl
    refine ⟨?_, ?_, ?_⟩
    · intro hid
      simp only [for_block, hp, Bind.bind, Except.bind, hval, he]
      cases t0 with
      | ident i => simp [tokenIsIdent] at hid
      | op sym => rfl
      | lit l => rfl
    · intro idf h0 hiter
      subst h0
      simp only [for_block, hp, Bind.bind, Except.bind, hval, he, hiter]
    · intro idf entries items h0 hctx hiter
      subst h0
      subst hctx
      simp only [for_block, hp, Bind.bind, Except.bind, hval, he, hiter,
        forLoopRender_eq]
      have : (fun outs => ("") ++ String.join outs) =
          (String.join : List String → String) := funext fun outs => rfl
      rw [this]

/-- Witness for the C4 theorem at concrete inputs. -/
theorem for_block_contract_c4_witness :
    for_block (fun _ _ => .error .fuel) (fun _ _ => .ok (""))
        (.dict []) ("b") ("1 2 3 4") =
      .error (.tooManyTagArgs ((("Too many arguments passed to ") ++
        ("for") ++ (" tag. Expected ") ++ natRepr 3 ++
        (" arguments, got ") ++ natRepr 4 ++ (".")))) ∧
    for_block (fun _ _ => .error .fuel) (fun _ _ => .ok ("y"))
        (.dict [(("items"), .list [.int 1, .int 2])]) ("b")
        ("x in items") = .ok ("yy") ∧
    for_block (fun _ _ => .error .fuel) (fun _ _ => .ok (""))
        (.dict [(("items"), .list [.int 1])]) ("b") ("1 in items") =
      .error (.templateArg (("for tag expects identifier as first argument"))) :=
  ⟨for_block_contract_c4.1 (fun _ _ => .error .fuel) (fun _ _ => .ok (""))
      (.dict []) ("b") ("1 2 3 4")
      [.lit (.numL ("1 ")), .lit (.numL ("2 ")), .lit (.numL ("3 ")),
       .lit (.numL ("4"))] rfl (by decide),
   ((for_block_contract_c4.2.2 (fun _ _ => .error .fuel)
      (fun _ _ => .ok ("y")) (.dict [(("items"), .list [.int 1, .int 2])])
      ("b") ("x in items") (.ident (.mk ("x") Option.none))
      (.op ("in")) (.ident (.mk ("items") Option.none))
      (.list [.int 1, .int 2]) rfl rfl).2.2 (.mk ("x") Option.none)
      [(("items"), .list [.int 1, .int 2])] [.int 1, .int 2] rfl rfl
      rfl).trans rfl,
   (for_block_contract_c4.2.2 (fun _ _ => .error .fuel) (fun _ _ => .ok (""))
      (.dict [(("items"), .list [.int 1])]) ("b") ("1 in items")
      (.lit (.numL ("1 "))) (.op ("in"))
      (.ident (.mk ("items") Option.none)) (.list [.int 1]) rfl rfl).1 rfl⟩

/-- C8: while a block is open, a different registered block tag whose
declared end-tag name equals the open block's end-tag name increments the
depth counter, the end-tag name at positive depth decrements it instead of
closing, and the end-tag name closes only at depth 0; consequently, feeding
a colliding nested block's tags to an open block closes it only at its own
end tag (third match), not at the nested block's end tag (second match), and
the pass-through renderer over two tags sharing the end tag `end` renders
`XYZ` with the outer block capturing the whole nested span. -/
theorem nested_end_tag_depth_c8 :
    (∀ reg (blk : TagLogicBlock) (t : TagTok) data other,
      lookupBlock reg blk.tag = some data → t.name ≠ data.endTag →
      lookupBlock reg t.name = some other → other.endTag = data.endTag →
      check_closing_tag reg blk t =
        .ok (false, { blk with depth := blk.depth + 1 })) ∧
    (∀ reg (blk : TagLogicBlock) (t : TagTok) data,
      lookupBlock reg blk.tag = some data → t.name = data.endTag →
      0 < blk.depth →
      check_closing_tag reg blk t =
        .ok (false, { blk with depth := blk.depth - 1 })) ∧
    (∀ reg (blk : TagLogicBlock) (t : TagTok) data,
      lookupBlock reg blk.tag = some data → t.name = data.endTag →
      blk.depth = 0 →
      check_closing_tag reg blk t = .ok (true, blk)) ∧
    feedClosingTags demoBlocks ⟨("outer"), (""), 0, []⟩
        [⟨("inner"), (""), ("")⟩, ⟨("end"), (""), ("")⟩] =
      .ok (⟨("outer"), (""), 0, []⟩, Option.none) ∧
    feedClosingTags demoBlocks ⟨("outer"), (""), 0, []⟩
        [⟨("inner"), (""), ("")⟩, ⟨("end"), (""), ("")⟩,
         ⟨("end"), (""), ("")⟩] =
      .ok (⟨("outer"), (""), 0, []⟩, some ⟨("end"), (""), ("")⟩) ∧
    demoRender 3 (.dict [])
        ("\x7b%outer%\x7dX\x7b%inner%\x7dY\x7b%end%\x7dZ\x7b%end%\x7d") =
      .ok ("XYZ") := by
  refine ⟨?_, ?_, ?_, rfl, rfl, rfl⟩
  · intro reg blk t data other hlook hne hother hend
    simp [check_closing_tag, hlook, if_neg hne, hother, hend]
  · intro reg blk t data hlook hname hdepth
    simp only [check_closing_tag, hlook, if_pos hname, if_pos hdepth]
  · intro reg blk t data hlook hname hdepth
    have h0 : ¬ (0 < blk.depth) := by omega
    simp only [check_closing_tag, hlook, if_pos hname, if_neg h0]

/-- Witness for the C8 theorem at concrete inputs. -/
theorem nested_end_tag_depth_c8_witness :
    check_closing_tag demoBlocks ⟨("outer"), (""), 0, []⟩
        ⟨("inner"), (""), ("")⟩ =
      .ok (false, ⟨("outer"), (""), 1, []⟩) ∧
    check_closing_tag demoBlocks ⟨("outer"), (""), 1, []⟩
        ⟨("end"), (""), ("")⟩ =
      .ok (false, ⟨("outer"), (""), 0, []⟩) ∧
    check_closing_tag demoBlocks ⟨("outer"), (""), 0, []⟩
        ⟨("end"), (""), ("")⟩ =
      .ok (true, ⟨("outer"), (""), 0, []⟩) :=
  ⟨nested_end_tag_depth_c8.1 demoBlocks ⟨("outer"), (""), 0, []⟩
      ⟨("inner"), (""), ("")⟩ ⟨("end"), []⟩ ⟨("end"), []⟩ rfl (by decide)
      rfl rfl,
   nested_end_tag_depth_c8.2.1 demoBlocks ⟨("outer"), (""), 1, []⟩
      ⟨("end"), (""), ("")⟩ ⟨("end"), []⟩ rfl rfl (by decide),
   nested_end_tag_depth_c8.2.2.1 demoBlocks ⟨("outer"), (""), 0, []⟩
      ⟨("end"), (""), ("")⟩ ⟨("end"), []⟩ rfl rfl rfl⟩

end SServer
